import Mathlib

/-!
# Verification of the bifrost core against its specification

A shallow embedding, in Lean 4, of the parts of the bifrost Hue-bridge
emulator that the checked claims are about:

* the Hue Zigbee update codec (`src/src/hue/zigbee/mod.rs`):
  `HueZigbeeUpdate.serialize` and `HueZigbeeUpdate.from_reader`;
* the entertainment stream engine (`src/crates/hue/src/zigbee/stream.rs`);
* the resource store (`src/src/resource.rs`): `get`, `try_update`,
  `generate_update`, `get_next_scene_id`;
* scene metadata delta laws (`src/crates/hue/src/api/scene.rs`);
* the service manager shutdown path (`src/crates/svc/src/manager.rs`);
* the entertainment frame decoder (`src/crates/zcl/src/hue.rs`).

Modelling conventions: machine integers (`u8`, `u16`, `u32`) are `Nat`
with explicit `% 2^w` where the embedded operation can overflow; byte
streams are `List Nat` (each element a byte value); `f64` values are
modelled by `ℚ` (`Rat`) with Rust float-to-int casts made explicit;
fallible Rust functions return `Except`.
-/

/-- `RType` (resource type tags) from `src/src/hue/api/resource.rs` usage:
the closed enumeration of resource type tags. -/
inductive RType where
  | authV1 | behaviorInstance | behaviorScript | bridge | bridgeHome | button
  | device | devicePower | deviceSoftwareUpdate | entertainment
  | entertainmentConfiguration | geofenceClient | geolocation | groupedLight
  | groupedLightLevel | groupedMotion | homekit | light | lightLevel | matter
  | motion | privateGroup | publicImage | relativeRotary | room | scene
  | smartScene | taurus | temperature | zigbeeConnectivity
  | zigbeeDeviceDiscovery | zone
  deriving DecidableEq, Repr

/-- The `ApiError` variants reachable from the embedded operations
(`src/src/error.rs` via its uses in the embedded code). `ioError` stands
for the `std::io` read/write failures surfaced through `ApiError`. -/
inductive ApiError where
  | ioError
  | hueZigbeeDecodeError
  | hueZigbeeUnknownFlags (bits : Nat)
  | packingError
  | tryFromIntError
  | notFound (id : Nat)
  | auxNotFound
  | wrongType (expected actual : RType)
  | updateUnsupported (t : RType)
  | full (t : RType)
  deriving DecidableEq, Repr

/-! ## Byte-stream primitives

`byteorder`-style little-endian reads and writes over a `List Nat` of
bytes.  Writers reduce values modulo 256 exactly where the Rust types
(`u8`, `u16`) guarantee the bound. -/

/-- `WriteBytesExt::write_u8`: one byte. -/
def writeU8 (n : Nat) : List Nat := [n % 256]

/-- `WriteBytesExt::write_u16::<LE>`: two bytes, little endian. -/
def writeU16LE (n : Nat) : List Nat := [n % 256, n / 256 % 256]

/-- `WriteBytesExt::write_u32::<LE>`: four bytes, little endian. -/
def writeU32LE (n : Nat) : List Nat :=
  [n % 256, n / 256 % 256, n / 65536 % 256, n / 16777216 % 256]

/-- `ReadBytesExt::read_u8`: fails (like the underlying `io::Read`) on end
of input. -/
def readU8 : List Nat → Except ApiError (Nat × List Nat)
  | [] => .error .ioError
  | b :: rest => .ok (b, rest)

/-- `ReadBytesExt::read_u16::<LE>`. -/
def readU16LE (l : List Nat) : Except ApiError (Nat × List Nat) := do
  let (b0, l) ← readU8 l
  let (b1, l) ← readU8 l
  return (b0 + 256 * b1, l)

/-- `Read::read_exact` into a buffer of `n` bytes. -/
def readBytes (n : Nat) (l : List Nat) : Except ApiError (List Nat × List Nat) :=
  if n ≤ l.length then .ok (l.take n, l.drop n) else .error .ioError

/-! ## Color coordinates and Rust float casts -/

/-- `XY` from `src/src/model/types.rs` usage: a pair of `f64` color
coordinates, modelled over `ℚ`. -/
structure XY where
  x : ℚ
  y : ℚ
  deriving DecidableEq, Repr

/-- `XY::new`. -/
def XY.new (x y : ℚ) : XY := ⟨x, y⟩

/-- Rust `expr as u16` on a float: truncate toward zero, saturating into
`[0, 0xFFFF]`. -/
def rustCastU16 (q : ℚ) : Nat := min 65535 (Int.toNat ⌊q⌋)

/-! ## Hue Zigbee update codec (`src/src/hue/zigbee/mod.rs`) -/

/-- `EffectType`: the enumerated effect bytes. -/
inductive EffectType where
  | noEffect | candle | fireplace | prism | sunrise | sparkle | opal
  | glisten | underwater | cosmos | sunbeam | enchant
  deriving DecidableEq, Repr

/-- `PrimitiveEnum::to_primitive` for `EffectType`: the assigned byte
values. -/
def EffectType.to_primitive : EffectType → Nat
  | .noEffect => 0x00
  | .candle => 0x01
  | .fireplace => 0x02
  | .prism => 0x03
  | .sunrise => 0x09
  | .sparkle => 0x0a
  | .opal => 0x0b
  | .glisten => 0x0c
  | .underwater => 0x0e
  | .cosmos => 0x0f
  | .sunbeam => 0x10
  | .enchant => 0x11

/-- `PrimitiveEnum::from_primitive` for `EffectType`: `none` on an
unassigned byte. -/
def EffectType.from_primitive : Nat → Option EffectType
  | 0x00 => some .noEffect
  | 0x01 => some .candle
  | 0x02 => some .fireplace
  | 0x03 => some .prism
  | 0x09 => some .sunrise
  | 0x0a => some .sparkle
  | 0x0b => some .opal
  | 0x0c => some .glisten
  | 0x0e => some .underwater
  | 0x0f => some .cosmos
  | 0x10 => some .sunbeam
  | 0x11 => some .enchant
  | _ => none

/-- `GradientUpdateHeader`: 4-byte packed header (`msb0` bit numbering:
`nlights` is the high nibble of byte 0, `resv0` the low nibble; `resv2`
is a little-endian `u16`). -/
structure GradientUpdateHeader where
  nlights : Nat
  resv0 : Nat
  resv1 : Nat
  resv2 : Nat
  deriving DecidableEq, Repr

/-- `PackedStruct::pack` for `GradientUpdateHeader`.  Packing fails when a
4-bit field overflows its width; `resv1`/`resv2` are `u8`/`u16`-typed in
the source, so their reductions are type-level facts. -/
def GradientUpdateHeader.pack (h : GradientUpdateHeader) : Except ApiError (List Nat) :=
  if h.nlights < 16 ∧ h.resv0 < 16 then
    .ok [16 * h.nlights + h.resv0, h.resv1 % 256, h.resv2 % 256, h.resv2 / 256 % 256]
  else
    .error .packingError

/-- `PackedStructSlice::unpack_from_slice` for `GradientUpdateHeader`
(expects exactly 4 bytes). -/
def GradientUpdateHeader.unpack_from_slice (b : List Nat) :
    Except ApiError GradientUpdateHeader :=
  match b with
  | [b0, b1, b2, b3] => .ok ⟨b0 / 16, b0 % 16, b1, b2 + 256 * b3⟩
  | _ => .error .packingError

/-- `PackedStruct::pack` for `PackedXY12`: two 12-bit fields packed
little-endian into 3 bytes (byte 0 = low 8 bits of `x`; byte 1 = high 4
bits of `x` in the low nibble, low 4 bits of `y` in the high nibble;
byte 2 = high 8 bits of `y`).  Fails when a field overflows 12 bits. -/
def packXY12 (x y : Nat) : Except ApiError (List Nat) :=
  if x < 4096 ∧ y < 4096 then
    .ok [x % 256, x / 256 + 16 * (y % 16), y / 16]
  else
    .error .packingError

/-- `PackedStructSlice::unpack_from_slice` for `PackedXY12` (expects
exactly 3 bytes). -/
def unpackXY12 (b : List Nat) : Except ApiError (Nat × Nat) :=
  match b with
  | [b0, b1, b2] => .ok (b0 + 256 * (b1 % 16), b1 / 16 + 16 * b2)
  | _ => .error .packingError

/-- `GradientColors`: the parsed GRADIENT_COLORS block. -/
structure GradientColors where
  header : GradientUpdateHeader
  points : List XY
  deriving DecidableEq, Repr

/-- `GradientParams`: scale and offset bytes. -/
structure GradientParams where
  scale : Nat
  offset : Nat
  deriving DecidableEq, Repr

/-- `HueZigbeeUpdate`: the flag-gated per-light update record. -/
structure HueZigbeeUpdate where
  onoff : Option Nat := none
  brightness : Option Nat := none
  color_mirek : Option Nat := none
  color_xy : Option XY := none
  unk0 : Option Nat := none
  gradient_colors : Option GradientColors := none
  gradient_params : Option GradientParams := none
  effect_type : Option EffectType := none
  effect_speed : Option Nat := none
  deriving DecidableEq, Repr

/-- `HueZigbeeUpdate::new` / `Default::default`: all fields absent. -/
def HueZigbeeUpdate.new : HueZigbeeUpdate := {}

/-- The `Flags` bit masks (a `u16` bitflags set). -/
def Flags.ON_OFF : Nat := 1
/-- Flag bit 1. -/
def Flags.BRIGHTNESS : Nat := 2
/-- Flag bit 2. -/
def Flags.COLOR_MIREK : Nat := 4
/-- Flag bit 3. -/
def Flags.COLOR_XY : Nat := 8
/-- Flag bit 4. -/
def Flags.UNKNOWN_0 : Nat := 16
/-- Flag bit 5. -/
def Flags.EFFECT_TYPE : Nat := 32
/-- Flag bit 6. -/
def Flags.GRADIENT_PARAMS : Nat := 64
/-- Flag bit 7. -/
def Flags.EFFECT_SPEED : Nat := 128
/-- Flag bit 8. -/
def Flags.GRADIENT_COLORS : Nat := 256

/-- Modelled from the spec: `TakeFlag::take` (`src/src/model/flags.rs` is
not in the tree).  Tests whether a single-bit flag is present and removes
it from the set; for a single set bit, clearing it is subtraction. -/
def takeFlag (flags flag : Nat) : Bool × Nat :=
  if flags &&& flag = 0 then (false, flags) else (true, flags - flag)

/-- `opt_to_flag` from `HueZigbeeUpdate::serialize`: insert `flag` when
the field is present. -/
def opt_to_flag {α : Type} (flags : Nat) (opt : Option α) (flag : Nat) : Nat :=
  if opt.isSome then flags ||| flag else flags

/-- The flag word computed by `HueZigbeeUpdate::serialize` (the chain of
`opt_to_flag` calls). -/
def flagsWord (hz : HueZigbeeUpdate) : Nat :=
  opt_to_flag (opt_to_flag (opt_to_flag (opt_to_flag (opt_to_flag (opt_to_flag
    (opt_to_flag (opt_to_flag (opt_to_flag 0
      hz.onoff Flags.ON_OFF)
      hz.brightness Flags.BRIGHTNESS)
      hz.color_mirek Flags.COLOR_MIREK)
      hz.color_xy Flags.COLOR_XY)
      hz.unk0 Flags.UNKNOWN_0)
      hz.effect_type Flags.EFFECT_TYPE)
      hz.effect_speed Flags.EFFECT_SPEED)
      hz.gradient_colors Flags.GRADIENT_COLORS)
      hz.gradient_params Flags.GRADIENT_PARAMS

/-- The packed bytes of a gradient point list (the loop in
`HueZigbeeUpdate::serialize` over `grad_color.points`). -/
def packPointsXY12 : List XY → Except ApiError (List Nat)
  | [] => .ok []
  | p :: rest => do
    let b ← packXY12 (rustCastU16 (p.x * 4095)) (rustCastU16 (p.y * 4095))
    let bs ← packPointsXY12 rest
    return b ++ bs

/-- `HueZigbeeUpdate::serialize`: flag word, then the present fields in
the source's write order (ON_OFF, BRIGHTNESS, COLOR_MIREK, COLOR_XY,
UNKNOWN_0, EFFECT_TYPE, GRADIENT_COLORS, EFFECT_SPEED, GRADIENT_PARAMS).
`u8::try_from(4 + 3 * len)` fails when the gradient block length
overflows a byte. -/
def HueZigbeeUpdate.serialize (hz : HueZigbeeUpdate) : Except ApiError (List Nat) := do
  let out := writeU16LE (flagsWord hz)
  let out := out ++ (match hz.onoff with | some v => writeU8 v | none => [])
  let out := out ++ (match hz.brightness with | some v => writeU8 v | none => [])
  let out := out ++ (match hz.color_mirek with | some v => writeU16LE v | none => [])
  let out := out ++ (match hz.color_xy with
    | some xy => writeU16LE (rustCastU16 (xy.x * 65535)) ++ writeU16LE (rustCastU16 (xy.y * 65535))
    | none => [])
  let out := out ++ (match hz.unk0 with | some v => writeU16LE v | none => [])
  let out := out ++ (match hz.effect_type with | some t => writeU8 t.to_primitive | none => [])
  let out ← (match hz.gradient_colors with
    | some gc => do
      if 4 + 3 * gc.points.length < 256 then
        let hdr ← gc.header.pack
        let pts ← packPointsXY12 gc.points
        pure (out ++ writeU8 (4 + 3 * gc.points.length) ++ hdr ++ pts)
      else
        throw ApiError.tryFromIntError
    | none => pure out)
  let out := out ++ (match hz.effect_speed with | some v => writeU8 v | none => [])
  let out := out ++ (match hz.gradient_params with
    | some p => writeU8 p.scale ++ writeU8 p.offset
    | none => [])
  return out

/-- The gradient point loop of `HueZigbeeUpdate::from_reader`: read
`n` packed 3-byte XY12 points, each decoded as `x / 0xFFF`, `y / 0xFFF`. -/
def readGradientPoints : Nat → List Nat → Except ApiError (List XY × List Nat)
  | 0, l => .ok ([], l)
  | n + 1, l => do
    let (pb, l) ← readBytes 3 l
    let p ← unpackXY12 pb
    let (pts, l) ← readGradientPoints n l
    return (XY.mk ((p.1 : ℚ) / 4095) ((p.2 : ℚ) / 4095) :: pts, l)

/-- Final step of `HueZigbeeUpdate::from_reader`: accept when every flag
bit has been consumed, otherwise fail with the leftover bits. -/
def frFinish (flags : Nat) (hz : HueZigbeeUpdate) (l : List Nat) :
    Except ApiError (HueZigbeeUpdate × List Nat) :=
  if flags = 0 then .ok (hz, l) else .error (.hueZigbeeUnknownFlags flags)

/-- `from_reader` step: GRADIENT_PARAMS (scale byte, then offset byte). -/
def frGradientParams (flags : Nat) (hz : HueZigbeeUpdate) (l : List Nat) :
    Except ApiError (HueZigbeeUpdate × List Nat) :=
  match takeFlag flags Flags.GRADIENT_PARAMS with
  | (true, flags) => do
    let (scale, l) ← readU8 l
    let (offset, l) ← readU8 l
    frFinish flags { hz with gradient_params := some ⟨scale, offset⟩ } l
  | (false, flags) => frFinish flags hz l

/-- `from_reader` step: EFFECT_SPEED (one byte). -/
def frEffectSpeed (flags : Nat) (hz : HueZigbeeUpdate) (l : List Nat) :
    Except ApiError (HueZigbeeUpdate × List Nat) :=
  match takeFlag flags Flags.EFFECT_SPEED with
  | (true, flags) => do
    let (v, l) ← readU8 l
    frGradientParams flags { hz with effect_speed := some v } l
  | (false, flags) => frGradientParams flags hz l

/-- `from_reader` step: GRADIENT_COLORS (length byte, 4-byte header, then
`header.nlights` packed points).  The `debug_assert!` on the length byte
is compiled out and not modelled. -/
def frGradientColors (flags : Nat) (hz : HueZigbeeUpdate) (l : List Nat) :
    Except ApiError (HueZigbeeUpdate × List Nat) :=
  match takeFlag flags Flags.GRADIENT_COLORS with
  | (true, flags) => do
    let (_len, l) ← readU8 l
    let (hb, l) ← readBytes 4 l
    let header ← GradientUpdateHeader.unpack_from_slice hb
    let (points, l) ← readGradientPoints header.nlights l
    frEffectSpeed flags { hz with gradient_colors := some ⟨header, points⟩ } l
  | (false, flags) => frEffectSpeed flags hz l

/-- `from_reader` step: EFFECT_TYPE (one byte, rejected when it is not an
assigned `EffectType` value). -/
def frEffectType (flags : Nat) (hz : HueZigbeeUpdate) (l : List Nat) :
    Except ApiError (HueZigbeeUpdate × List Nat) :=
  match takeFlag flags Flags.EFFECT_TYPE with
  | (true, flags) => do
    let (data, l) ← readU8 l
    match EffectType.from_primitive data with
    | some t => frGradientColors flags { hz with effect_type := some t } l
    | none => .error .hueZigbeeDecodeError
  | (false, flags) => frGradientColors flags hz l

/-- `from_reader` step: UNKNOWN_0 (little-endian `u16`). -/
def frUnk0 (flags : Nat) (hz : HueZigbeeUpdate) (l : List Nat) :
    Except ApiError (HueZigbeeUpdate × List Nat) :=
  match takeFlag flags Flags.UNKNOWN_0 with
  | (true, flags) => do
    let (v, l) ← readU16LE l
    frEffectType flags { hz with unk0 := some v } l
  | (false, flags) => frEffectType flags hz l

/-- `from_reader` step: COLOR_XY (two little-endian `u16`, each divided
by `0xFFFF`). -/
def frColorXY (flags : Nat) (hz : HueZigbeeUpdate) (l : List Nat) :
    Except ApiError (HueZigbeeUpdate × List Nat) :=
  match takeFlag flags Flags.COLOR_XY with
  | (true, flags) => do
    let (u, l) ← readU16LE l
    let (v, l) ← readU16LE l
    frUnk0 flags { hz with color_xy := some (XY.new ((u : ℚ) / 65535) ((v : ℚ) / 65535)) } l
  | (false, flags) => frUnk0 flags hz l

/-- `from_reader` step: COLOR_MIREK (little-endian `u16`). -/
def frColorMirek (flags : Nat) (hz : HueZigbeeUpdate) (l : List Nat) :
    Except ApiError (HueZigbeeUpdate × List Nat) :=
  match takeFlag flags Flags.COLOR_MIREK with
  | (true, flags) => do
    let (v, l) ← readU16LE l
    frColorXY flags { hz with color_mirek := some v } l
  | (false, flags) => frColorXY flags hz l

/-- `from_reader` step: BRIGHTNESS (one byte). -/
def frBrightness (flags : Nat) (hz : HueZigbeeUpdate) (l : List Nat) :
    Except ApiError (HueZigbeeUpdate × List Nat) :=
  match takeFlag flags Flags.BRIGHTNESS with
  | (true, flags) => do
    let (v, l) ← readU8 l
    frColorMirek flags { hz with brightness := some v } l
  | (false, flags) => frColorMirek flags hz l

/-- `from_reader` step: ON_OFF (one byte). -/
def frOnOff (flags : Nat) (hz : HueZigbeeUpdate) (l : List Nat) :
    Except ApiError (HueZigbeeUpdate × List Nat) :=
  match takeFlag flags Flags.ON_OFF with
  | (true, flags) => do
    let (v, l) ← readU8 l
    frBrightness flags { hz with onoff := some v } l
  | (false, flags) => frBrightness flags hz l

/-- `HueZigbeeUpdate::from_reader`: read the little-endian flag word
(`Flags::from_bits` cannot fail since all 16 bits are named), then
consume the flagged fields in the source's read order, returning the
update and the unconsumed rest of the input. -/
def HueZigbeeUpdate.from_reader (l : List Nat) :
    Except ApiError (HueZigbeeUpdate × List Nat) := do
  let (w, l) ← readU16LE l
  frOnOff w HueZigbeeUpdate.new l

/-! ### Serialized byte layout

Named segments of the `serialize` output, used to reason about the wire
order and the round trip. -/

/-- Bytes of the ON_OFF segment. -/
def segOnOff (hz : HueZigbeeUpdate) : List Nat :=
  match hz.onoff with | some v => writeU8 v | none => []

/-- Bytes of the BRIGHTNESS segment. -/
def segBrightness (hz : HueZigbeeUpdate) : List Nat :=
  match hz.brightness with | some v => writeU8 v | none => []

/-- Bytes of the COLOR_MIREK segment. -/
def segColorMirek (hz : HueZigbeeUpdate) : List Nat :=
  match hz.color_mirek with | some v => writeU16LE v | none => []

/-- Bytes of the COLOR_XY segment. -/
def segColorXY (hz : HueZigbeeUpdate) : List Nat :=
  match hz.color_xy with
  | some xy => writeU16LE (rustCastU16 (xy.x * 65535)) ++ writeU16LE (rustCastU16 (xy.y * 65535))
  | none => []

/-- Bytes of the UNKNOWN_0 segment. -/
def segUnk0 (hz : HueZigbeeUpdate) : List Nat :=
  match hz.unk0 with | some v => writeU16LE v | none => []

/-- Bytes of the EFFECT_TYPE segment. -/
def segEffectType (hz : HueZigbeeUpdate) : List Nat :=
  match hz.effect_type with | some t => writeU8 t.to_primitive | none => []

/-- The 3 packed bytes of one gradient point (the successful case of
`PackedXY12` packing). -/
def pointBytesXY12 (p : XY) : List Nat :=
  [rustCastU16 (p.x * 4095) % 256,
   rustCastU16 (p.x * 4095) / 256 + 16 * (rustCastU16 (p.y * 4095) % 16),
   rustCastU16 (p.y * 4095) / 16]

/-- Packed bytes of a gradient point list (successful case). -/
def pointsBytes : List XY → List Nat
  | [] => []
  | p :: ps => pointBytesXY12 p ++ pointsBytes ps

/-- The 4 packed header bytes (successful case of header packing). -/
def headerBytes (h : GradientUpdateHeader) : List Nat :=
  [16 * h.nlights + h.resv0, h.resv1 % 256, h.resv2 % 256, h.resv2 / 256 % 256]

/-- Bytes of the GRADIENT_COLORS segment (successful case): length byte,
4-byte header, packed points. -/
def bytesOfGC (gc : GradientColors) : List Nat :=
  writeU8 (4 + 3 * gc.points.length) ++ headerBytes gc.header ++ pointsBytes gc.points

/-- Bytes of the GRADIENT_COLORS segment of an update. -/
def segGradientColors (hz : HueZigbeeUpdate) : List Nat :=
  match hz.gradient_colors with | some gc => bytesOfGC gc | none => []

/-- Bytes of the EFFECT_SPEED segment. -/
def segEffectSpeed (hz : HueZigbeeUpdate) : List Nat :=
  match hz.effect_speed with | some v => writeU8 v | none => []

/-- Bytes of the GRADIENT_PARAMS segment. -/
def segGradientParams (hz : HueZigbeeUpdate) : List Nat :=
  match hz.gradient_params with | some p => writeU8 p.scale ++ writeU8 p.offset | none => []

/-- The full successful `serialize` output: the flag word followed by the
segments in the source's write order — GRADIENT_COLORS strictly before
EFFECT_SPEED. -/
def serializedBytes (hz : HueZigbeeUpdate) : List Nat :=
  writeU16LE (flagsWord hz) ++ segOnOff hz ++ segBrightness hz ++ segColorMirek hz
    ++ segColorXY hz ++ segUnk0 hz ++ segEffectType hz ++ segGradientColors hz
    ++ segEffectSpeed hz ++ segGradientParams hz

/-- Modelled from the spec: the write order that the specification (§9)
and claim C2 assert, with the EFFECT_SPEED byte emitted *before* the
GRADIENT_COLORS block; otherwise identical to `serializedBytes`.  Used to
compare the asserted order against the source's actual order. -/
def serializedBytesSpecOrder (hz : HueZigbeeUpdate) : List Nat :=
  writeU16LE (flagsWord hz) ++ segOnOff hz ++ segBrightness hz ++ segColorMirek hz
    ++ segColorXY hz ++ segUnk0 hz ++ segEffectType hz ++ segEffectSpeed hz
    ++ segGradientColors hz ++ segGradientParams hz

/-! ### Well-formedness

The domain on which the encoder is total and faithful: machine-integer
fields within their Rust type bounds, a gradient header consistent with
its point list and within its packed bit widths, and color coordinates
that are exact grid fractions of the wire scaling (`k / 0xFFFF` for
COLOR_XY, `k / 0xFFF` for gradient points). -/

/-- A gradient point on the 12-bit wire grid. -/
def WfPoint4095 (p : XY) : Prop :=
  (∃ k : Nat, k ≤ 4095 ∧ p.x = (k : ℚ) / 4095) ∧
    (∃ k : Nat, k ≤ 4095 ∧ p.y = (k : ℚ) / 4095)

/-- A COLOR_XY coordinate pair on the 16-bit wire grid. -/
def WfXY65535 (p : XY) : Prop :=
  (∃ k : Nat, k ≤ 65535 ∧ p.x = (k : ℚ) / 65535) ∧
    (∃ k : Nat, k ≤ 65535 ∧ p.y = (k : ℚ) / 65535)

/-- A well-formed gradient block: header consistent with the points (the
source's `debug_assert` invariant), packed fields within width, grid
points. -/
def WfGradientColors (gc : GradientColors) : Prop :=
  gc.header.nlights = gc.points.length ∧ gc.header.nlights < 16 ∧ gc.header.resv0 < 16 ∧
    gc.header.resv1 < 256 ∧ gc.header.resv2 < 65536 ∧ ∀ p ∈ gc.points, WfPoint4095 p

/-- A well-formed `HueZigbeeUpdate`. -/
def HueZigbeeUpdate.Wf (hz : HueZigbeeUpdate) : Prop :=
  (∀ v ∈ hz.onoff, v < 256) ∧ (∀ v ∈ hz.brightness, v < 256) ∧
    (∀ v ∈ hz.color_mirek, v < 65536) ∧ (∀ p ∈ hz.color_xy, WfXY65535 p) ∧
    (∀ v ∈ hz.unk0, v < 65536) ∧ (∀ gc ∈ hz.gradient_colors, WfGradientColors gc) ∧
    (∀ gp ∈ hz.gradient_params, gp.scale < 256 ∧ gp.offset < 256) ∧
    (∀ v ∈ hz.effect_speed, v < 256)

/-- A concrete fully-populated well-formed update, used as a round-trip
witness input. -/
def hzWitness : HueZigbeeUpdate :=
  { onoff := some 1, brightness := some 128, color_mirek := some 500,
    color_xy := some ⟨13107 / 65535, 1 / 65535⟩, unk0 := some 4660,
    gradient_colors := some ⟨⟨1, 0, 0, 0⟩, [⟨1 / 4095, 0⟩]⟩,
    gradient_params := some ⟨3, 4⟩, effect_type := some .prism,
    effect_speed := some 7 }

/-! ## Entertainment stream engine (`src/crates/hue/src/zigbee/stream.rs`) -/

/-- `ZigbeeMessage`: Zigbee cluster id, command id, ZCL data bytes, and
the disable-default-response flag. -/
structure ZigbeeMessage where
  cluster : Nat
  command : Nat
  data : List Nat
  ddr : Bool
  deriving DecidableEq, Repr

/-- `ZigbeeMessage::new` (`ddr` defaults to `true`). -/
def ZigbeeMessage.new (cluster command : Nat) (data : List Nat) : ZigbeeMessage :=
  ⟨cluster, command, data, true⟩

/-- `EntertainmentZigbeeStream` state: `{smoothing: u16, counter: u32}`. -/
structure EntertainmentZigbeeStream where
  smoothing : Nat
  counter : Nat
  deriving DecidableEq, Repr

/-- `EntertainmentZigbeeStream::DEFAULT_SMOOTHING`. -/
def EntertainmentZigbeeStream.DEFAULT_SMOOTHING : Nat := 0x0400
/-- `EntertainmentZigbeeStream::CLUSTER`. -/
def EntertainmentZigbeeStream.CLUSTER : Nat := 0xFC01
/-- `EntertainmentZigbeeStream::CMD_SEGMENT_MAP`. -/
def EntertainmentZigbeeStream.CMD_SEGMENT_MAP : Nat := 7
/-- `EntertainmentZigbeeStream::CMD_RESET`. -/
def EntertainmentZigbeeStream.CMD_RESET : Nat := 3
/-- `EntertainmentZigbeeStream::CMD_FRAME`. -/
def EntertainmentZigbeeStream.CMD_FRAME : Nat := 1

/-- `EntertainmentZigbeeStream::new(counter)`. -/
def EntertainmentZigbeeStream.new (counter : Nat) : EntertainmentZigbeeStream :=
  ⟨EntertainmentZigbeeStream.DEFAULT_SMOOTHING, counter⟩

/-- `HueEntFrameLightRecord` (`crate::zigbee`).  Modelled from the spec:
each light record is `{u16 addr, u16 brightness, 3 bytes packed xy12}`
(§4.4); the packed xy bytes are kept raw here. -/
structure HueEntFrameLightRecord where
  addr : Nat
  brightness : Nat
  raw : List Nat
  deriving DecidableEq, Repr

/-- `HueEntStop::pack` (`src/crates/zcl/src/hue.rs`, packed size 6,
little-endian): `{u8 x0, u8 x1, u32 LE counter}`. -/
def hueEntStopPack (x0 x1 counter : Nat) : List Nat :=
  writeU8 x0 ++ writeU8 x1 ++ writeU32LE counter

/-- Packed bytes of a list of light records. -/
def entRecordsBytes : List HueEntFrameLightRecord → List Nat
  | [] => []
  | b :: rest => writeU16LE b.addr ++ writeU16LE b.brightness ++ b.raw ++ entRecordsBytes rest

/-- Modelled from the spec: `HueEntFrame::pack` of `crate::zigbee` (the
packing side is not in the tree).  §4.4: frame data is `{u32 LE counter,
u16 LE smoothing, [light records]}`. -/
def hueEntFramePack (counter smoothing : Nat) (blks : List HueEntFrameLightRecord) : List Nat :=
  writeU32LE counter ++ writeU16LE smoothing ++ entRecordsBytes blks

/-- Little-endian `u16` encodings of a list of segment ids. -/
def segmentIdsBytes : List Nat → List Nat
  | [] => []
  | v :: rest => writeU16LE v ++ segmentIdsBytes rest

/-- Modelled from the spec: `HueEntSegmentConfig::new(map).pack()` (the
packing side is not in the tree).  §4.4/§4.5: a packed representation of
the mapping — a big-endian `u16` count followed by little-endian `u16`
segment ids; stateless with respect to the counter. -/
def hueEntSegmentConfigPack (map : List Nat) : List Nat :=
  [map.length / 256 % 256, map.length % 256] ++ segmentIdsBytes map

/-- `EntertainmentZigbeeStream::segment_mapping`: command 7, counter
untouched. -/
def EntertainmentZigbeeStream.segment_mapping (s : EntertainmentZigbeeStream)
    (map : List Nat) : ZigbeeMessage × EntertainmentZigbeeStream :=
  (ZigbeeMessage.new EntertainmentZigbeeStream.CLUSTER
    EntertainmentZigbeeStream.CMD_SEGMENT_MAP (hueEntSegmentConfigPack map), s)

/-- `EntertainmentZigbeeStream::reset`: command 3, encodes
`{x0 = 0, x1 = 1, counter}` with the *current* counter and leaves the
state unchanged. -/
def EntertainmentZigbeeStream.reset (s : EntertainmentZigbeeStream) :
    ZigbeeMessage × EntertainmentZigbeeStream :=
  (ZigbeeMessage.new EntertainmentZigbeeStream.CLUSTER
    EntertainmentZigbeeStream.CMD_RESET (hueEntStopPack 0 1 s.counter), s)

/-- `EntertainmentZigbeeStream::frame`: command 1, encodes the current
counter and smoothing, then increments the counter by one (`u32`
wrap-around made explicit as `% 2^32`). -/
def EntertainmentZigbeeStream.frame (s : EntertainmentZigbeeStream)
    (blks : List HueEntFrameLightRecord) : ZigbeeMessage × EntertainmentZigbeeStream :=
  (ZigbeeMessage.new EntertainmentZigbeeStream.CLUSTER
    EntertainmentZigbeeStream.CMD_FRAME (hueEntFramePack s.counter s.smoothing blks),
   { s with counter := (s.counter + 1) % 4294967296 })

/-- One client call of an entertainment session. -/
inductive StreamOp where
  | frame (blks : List HueEntFrameLightRecord)
  | reset
  | segmentMapping (map : List Nat)

/-- Run a sequence of stream operations, threading the stream state. -/
def runStreamOps (s : EntertainmentZigbeeStream) : List StreamOp → EntertainmentZigbeeStream
  | [] => s
  | op :: rest =>
    runStreamOps
      (match op with
        | .frame blks => (s.frame blks).2
        | .reset => s.reset.2
        | .segmentMapping map => (s.segment_mapping map).2)
      rest

/-- The number of `frame` calls in an operation list. -/
def frameCount : List StreamOp → Nat
  | [] => 0
  | .frame _ :: rest => frameCount rest + 1
  | .reset :: rest => frameCount rest
  | .segmentMapping _ :: rest => frameCount rest

/-! ## Entertainment frame decoder (`src/crates/zcl/src/hue.rs`) -/

/-- `HueEntFrameLight`: one parsed light record — `addr: u16`, `b: u16`,
3 raw xy bytes.  The struct's fields total 7 bytes and `parse` slices 7
bytes per record. -/
structure HueEntFrameLight where
  addr : Nat
  b : Nat
  raw : List Nat
  deriving DecidableEq, Repr

/-- `HueEntFrame` (zcl): header counter and `x0`, plus light records. -/
structure HueEntFrame where
  counter : Nat
  x0 : Nat
  blks : List HueEntFrameLight
  deriving DecidableEq, Repr

/-- Outcome of a ZCL parse in the embedding: success, the
`PackingError::InvalidValue` error, or a Rust panic (an out-of-bounds
slice index).  The panic case makes the claimed safety property
expressible. -/
inductive ZclParse (α : Type) where
  | ok (v : α)
  | invalidValue
  | panic
  deriving DecidableEq, Repr

/-- The record loop of `HueEntFrame::parse`: while data remains, slice
`&data[..7]` — which panics in Rust when fewer than 7 bytes remain — and
unpack one record (`u16 LE addr`, `u16 LE b`, 3 raw bytes). -/
def hueEntLightLoop : List Nat → ZclParse (List HueEntFrameLight)
  | [] => .ok []
  | b0 :: b1 :: b2 :: b3 :: b4 :: b5 :: b6 :: rest =>
    match hueEntLightLoop rest with
    | .ok blks => .ok (⟨b0 + 256 * b1, b2 + 256 * b3, [b4, b5, b6]⟩ :: blks)
    | .invalidValue => .invalidValue
    | .panic => .panic
  | _ => .panic

/-- `HueEntFrame::parse`: inputs shorter than `8 + 5 = 13` bytes fail
with `InvalidValue`; otherwise the 6-byte header `{u32 LE counter, u16 LE
x0}` is split off and 7-byte records are consumed to end of input. -/
def HueEntFrame.parse (data : List Nat) : ZclParse HueEntFrame :=
  if data.length < 8 + 5 then .invalidValue
  else
    match data with
    | h0 :: h1 :: h2 :: h3 :: h4 :: h5 :: rest =>
      match hueEntLightLoop rest with
      | .ok blks =>
        .ok ⟨h0 + 256 * h1 + 65536 * h2 + 16777216 * h3, h4 + 256 * h5, blks⟩
      | .invalidValue => .invalidValue
      | .panic => .panic
    | _ => .invalidValue

/-! ## Scene metadata delta laws (`src/crates/hue/src/api/scene.rs`) -/

/-- `ResourceLink`: a resource id (UUID, modelled as `Nat`) with its type
tag. -/
structure ResourceLink where
  rid : Nat
  rtype : RType
  deriving DecidableEq, Repr

/-- `SceneMetadata`: optional appdata and image link, mandatory name. -/
structure SceneMetadata where
  appdata : Option String
  image : Option ResourceLink
  name : String
  deriving DecidableEq, Repr

/-- `SceneMetadataUpdate`: every field optional (default empty). -/
structure SceneMetadataUpdate where
  appdata : Option String := none
  image : Option ResourceLink := none
  name : Option String := none
  deriving DecidableEq, Repr

/-- `AddAssign<SceneMetadataUpdate> for SceneMetadata`: overwrite only
the fields present in the update. -/
def SceneMetadata.addAssign (m : SceneMetadata) (upd : SceneMetadataUpdate) : SceneMetadata :=
  let m1 := match upd.appdata with
    | some appdata => { m with appdata := some appdata }
    | none => m
  let m2 := match upd.image with
    | some image => { m1 with image := some image }
    | none => m1
  match upd.name with
  | some name => { m2 with name := name }
  | none => m2

/-- `Sub for &SceneMetadata`: `a - b` starts from the empty update and,
when `a ≠ b`, clones into it each field of `b` that differs from `a` —
including a differing field of `b` that is itself `None`. -/
def SceneMetadata.sub (a b : SceneMetadata) : SceneMetadataUpdate :=
  if a ≠ b then
    { appdata := if a.appdata ≠ b.appdata then b.appdata else none,
      image := if a.image ≠ b.image then b.image else none,
      name := if a.name ≠ b.name then some b.name else none }
  else
    {}

/-! ## Resource model and store (`src/src/resource.rs`)

The resource variants carry large API records in the source; each payload
here is restricted to the fields the embedded store operations read
(`generate_update`, `get_next_scene_id`, `get`), and variants whose
payloads those operations never inspect are stubbed with empty payloads. -/

/-- `DeviceColorMode` (`crate::z2m::update`).  Modelled from the spec:
the color-mode selector, `ColorTemp` or `Xy`. -/
inductive DeviceColorMode where
  | colorTemp
  | xy
  deriving DecidableEq, Repr

/-- `On`: the on/off record (`on` is a reserved token in Lean, so the
field is `on_`). -/
structure On where
  on_ : Bool
  deriving DecidableEq, Repr

/-- `Dimming`: brightness (an `f64`, modelled over `ℚ`). -/
structure Dimming where
  brightness : ℚ
  deriving DecidableEq, Repr

/-- `ColorTemperature`: mirek value. -/
structure ColorTemperature where
  mirek : Nat
  deriving DecidableEq, Repr

/-- `LightColor`: current xy color. -/
structure LightColor where
  xy : XY
  deriving DecidableEq, Repr

/-- `Light`, restricted to the fields `generate_update` reads. -/
structure Light where
  on_ : On
  dimming : Dimming
  color_mode : Option DeviceColorMode
  color_temperature : ColorTemperature
  color : LightColor
  deriving DecidableEq, Repr

/-- `GroupedLight`, restricted to the fields `generate_update` reads. -/
structure GroupedLight where
  on_ : On
  dimming : Dimming
  deriving DecidableEq, Repr

/-- `SceneActive` (`src/crates/hue/src/api/scene.rs`). -/
inductive SceneActive where
  | inactive
  | static
  | dynamicPalette
  deriving DecidableEq, Repr

/-- `SceneStatusUpdate` (`src/crates/hue/src/api/scene.rs`). -/
inductive SceneStatusUpdate where
  | active
  | static
  | dynamicPalette
  deriving DecidableEq, Repr

/-- `SceneStatus`: active state plus an optional last-recall timestamp
(modelled as `Nat`). -/
structure SceneStatus where
  active : SceneActive
  last_recall : Option Nat
  deriving DecidableEq, Repr

/-- `Scene`, restricted to the fields the store operations read: the
owning room link, metadata, and status. -/
structure Scene where
  group : ResourceLink
  metadata : SceneMetadata
  status : Option SceneStatus
  deriving DecidableEq, Repr

/-- `Device`, restricted to its service links. -/
structure Device where
  services : List ResourceLink
  deriving DecidableEq, Repr

/-- `Resource`: the tagged union over the ~30 resource variants.  The
four variants whose payloads the embedded operations inspect carry them;
the rest are stubbed. -/
inductive Resource where
  | authV1
  | behaviorInstance
  | behaviorScript
  | bridge
  | bridgeHome
  | button
  | device (d : Device)
  | devicePower
  | deviceSoftwareUpdate
  | entertainment
  | entertainmentConfiguration
  | geofenceClient
  | geolocation
  | groupedLight (g : GroupedLight)
  | groupedLightLevel
  | groupedMotion
  | homekit
  | light (l : Light)
  | lightLevel
  | matter
  | motion
  | privateGroup
  | publicImage
  | relativeRotary
  | room
  | scene (s : Scene)
  | smartScene
  | taurus
  | temperature
  | zigbeeConnectivity
  | zigbeeDeviceDiscovery
  | zone
  deriving DecidableEq, Repr

/-- `Resource::rtype`: the type tag of each variant. -/
def Resource.rtype : Resource → RType
  | .authV1 => .authV1
  | .behaviorInstance => .behaviorInstance
  | .behaviorScript => .behaviorScript
  | .bridge => .bridge
  | .bridgeHome => .bridgeHome
  | .button => .button
  | .device _ => .device
  | .devicePower => .devicePower
  | .deviceSoftwareUpdate => .deviceSoftwareUpdate
  | .entertainment => .entertainment
  | .entertainmentConfiguration => .entertainmentConfiguration
  | .geofenceClient => .geofenceClient
  | .geolocation => .geolocation
  | .groupedLight _ => .groupedLight
  | .groupedLightLevel => .groupedLightLevel
  | .groupedMotion => .groupedMotion
  | .homekit => .homekit
  | .light _ => .light
  | .lightLevel => .lightLevel
  | .matter => .matter
  | .motion => .motion
  | .privateGroup => .privateGroup
  | .publicImage => .publicImage
  | .relativeRotary => .relativeRotary
  | .room => .room
  | .scene _ => .scene
  | .smartScene => .smartScene
  | .taurus => .taurus
  | .temperature => .temperature
  | .zigbeeConnectivity => .zigbeeConnectivity
  | .zigbeeDeviceDiscovery => .zigbeeDeviceDiscovery
  | .zone => .zone

/-- `DimmingUpdate`. -/
structure DimmingUpdate where
  brightness : ℚ
  deriving DecidableEq, Repr

/-- `ColorTemperatureUpdate`. -/
structure ColorTemperatureUpdate where
  mirek : Nat
  deriving DecidableEq, Repr

/-- `ColorUpdate`. -/
structure ColorUpdate where
  xy : XY
  deriving DecidableEq, Repr

/-- Modelled from the spec: `LightUpdate` (`crate::hue::update` is not in
the tree).  A subset record of optional fields: on, dimming, and the
color branch, as used by `generate_update` and the CLIP light route. -/
structure LightUpdate where
  on_ : Option On := none
  dimming : Option DimmingUpdate := none
  color_temperature : Option ColorTemperatureUpdate := none
  color : Option ColorUpdate := none
  deriving DecidableEq, Repr

/-- `LightUpdate::new`. -/
def LightUpdate.new : LightUpdate := {}

/-- Modelled from the spec: `LightUpdate::with_brightness`. -/
def LightUpdate.with_brightness (u : LightUpdate) (b : ℚ) : LightUpdate :=
  { u with dimming := some ⟨b⟩ }

/-- Modelled from the spec: `LightUpdate::with_on`. -/
def LightUpdate.with_on (u : LightUpdate) (o : Bool) : LightUpdate :=
  { u with on_ := some ⟨o⟩ }

/-- Modelled from the spec: `LightUpdate::with_color_temperature`. -/
def LightUpdate.with_color_temperature (u : LightUpdate) (m : Nat) : LightUpdate :=
  { u with color_temperature := some ⟨m⟩ }

/-- Modelled from the spec: `LightUpdate::with_color_xy`. -/
def LightUpdate.with_color_xy (u : LightUpdate) (xy : XY) : LightUpdate :=
  { u with color := some ⟨xy⟩ }

/-- Modelled from the spec: `GroupedLightUpdate` — brightness and on. -/
structure GroupedLightUpdate where
  on_ : Option On := none
  dimming : Option DimmingUpdate := none
  deriving DecidableEq, Repr

/-- `GroupedLightUpdate::new`. -/
def GroupedLightUpdate.new : GroupedLightUpdate := {}

/-- Modelled from the spec: `GroupedLightUpdate::with_brightness`. -/
def GroupedLightUpdate.with_brightness (u : GroupedLightUpdate) (b : ℚ) : GroupedLightUpdate :=
  { u with dimming := some ⟨b⟩ }

/-- Modelled from the spec: `GroupedLightUpdate::with_on`. -/
def GroupedLightUpdate.with_on (u : GroupedLightUpdate) (o : Bool) : GroupedLightUpdate :=
  { u with on_ := some ⟨o⟩ }

/-- `SceneRecall` (`src/crates/hue/src/api/scene.rs`): recall action,
duration, dimming. -/
structure SceneRecall where
  action : Option SceneStatusUpdate := none
  duration : Option Nat := none
  dimming : Option DimmingUpdate := none
  deriving DecidableEq, Repr

/-- `SceneUpdate`, restricted to the recall field `generate_update`
sets (`recall` is a reserved command name in this toolchain, so the field
is `recall_`). -/
structure SceneUpdate where
  recall_ : Option SceneRecall := none
  deriving DecidableEq, Repr

/-- `SceneUpdate::new`. -/
def SceneUpdate.new : SceneUpdate := {}

/-- `SceneUpdate::with_recall_action`
(`src/crates/hue/src/api/scene.rs`): DynamicPalette recalls as
DynamicPalette, Static as Active, Inactive/absent as no action. -/
def SceneUpdate.with_recall_action (u : SceneUpdate) (action : Option SceneActive) :
    SceneUpdate :=
  { u with
    recall_ := some
      { action := match action with
          | some .dynamicPalette => some .dynamicPalette
          | some .static => some .active
          | some .inactive => none
          | none => none,
        duration := none,
        dimming := none } }

/-- `Update` (`crate::hue::update`): the delta payload of an `Update`
event. -/
inductive Update where
  | light (upd : LightUpdate)
  | groupedLight (upd : GroupedLightUpdate)
  | scene (upd : SceneUpdate)
  deriving DecidableEq, Repr

/-- `EventBlock` (`crate::hue::event`), payloads restricted: `Add` and
`Delete` carry only the id/link, `Update` the id and delta. -/
inductive EventBlock where
  | add (id : Nat)
  | update (id : Nat) (delta : Update)
  | delete (link : ResourceLink)
  deriving DecidableEq, Repr

/-- `AuxData`: out-of-band metadata. -/
structure AuxData where
  topic : Option String := none
  index : Option Nat := none
  deriving DecidableEq, Repr

/-- The `Resources` store state: the two id-keyed maps, modelled as
association lists.  The broadcast channel is modelled by returning the
list of events each operation sends. -/
structure Resources where
  aux : List (Nat × AuxData)
  res : List (Nat × Resource)
  deriving DecidableEq, Repr

/-- `HashMap::get` on an association list. -/
def alistGet {α : Type} (l : List (Nat × α)) (id : Nat) : Option α :=
  (l.find? (fun p => p.1 == id)).map (fun p => p.2)

/-- `HashMap::get_mut` followed by writing back the mutated value:
replace the value bound to an existing key. -/
def alistSet {α : Type} (l : List (Nat × α)) (id : Nat) (v : α) : List (Nat × α) :=
  l.map (fun p => if p.1 == id then (id, v) else p)

/-- `Resources::MAX_SCENE_ID`. -/
def Resources.MAX_SCENE_ID : Nat := 100

/-- `Resources::generate_update`: synthesize the derived delta for the
supported kinds; `Room` yields no event; any other kind is
`UpdateUnsupported`. -/
def Resources.generate_update : Resource → Except ApiError (Option Update)
  | .light light =>
    let upd := (LightUpdate.new.with_brightness light.dimming.brightness).with_on
      light.on_.on_
    let upd := match light.color_mode with
      | some .colorTemp => upd.with_color_temperature light.color_temperature.mirek
      | some .xy => upd.with_color_xy light.color.xy
      | none => upd
    .ok (some (.light upd))
  | .groupedLight glight =>
    .ok (some (.groupedLight
      ((GroupedLightUpdate.new.with_brightness glight.dimming.brightness).with_on
        glight.on_.on_)))
  | .scene scene =>
    .ok (some (.scene (SceneUpdate.new.with_recall_action (scene.status.map (·.active)))))
  | .room => .ok none
  | obj => .error (.updateUnsupported obj.rtype)

/-- The `TryFrom<Resource> for Light` conversion generated by
`resource_conversion_impl!`: note the macro hardcodes `RType::Light` as
the "expected" tag of the `WrongType` error for *every* instantiation. -/
def tryIntoLight : Resource → Except ApiError Light
  | .light l => .ok l
  | obj => .error (.wrongType RType.light obj.rtype)

/-- The `TryFrom<Resource> for Device` conversion (macro-generated; the
"expected" tag is the hardcoded `RType::Light`, see `tryIntoLight`). -/
def tryIntoDevice : Resource → Except ApiError Device
  | .device d => .ok d
  | obj => .error (.wrongType RType.light obj.rtype)

/-- `Resources::try_update::<Light>`: look up the resource, convert its
`&mut` view to the typed view, run the mutation closure, then synthesize
and broadcast the derived event.  The closure is modelled as returning
the final state of the `&mut` borrow together with its result, so a
mutation is retained even when a later step fails.  The triple returned
is (result, new store, events sent). -/
def Resources.try_update_light (st : Resources) (id : Nat)
    (func : Light → Light × Except ApiError Unit) :
    Except ApiError Unit × Resources × List EventBlock :=
  match alistGet st.res id with
  | none => (.error (.notFound id), st, [])
  | some obj =>
    match tryIntoLight obj with
    | .error e => (.error e, st, [])
    | .ok lt =>
      let r := func lt
      let st2 := { st with res := alistSet st.res id (.light r.1) }
      match r.2 with
      | .error e => (.error e, st2, [])
      | .ok _ =>
        match Resources.generate_update (.light r.1) with
        | .error e => (.error e, st2, [])
        | .ok none => (.ok (), st2, [])
        | .ok (some delta) => (.ok (), st2, [.update id delta])

/-- `Resources::try_update::<Device>` (same code path with `T = Device`,
an update-unsupported kind). -/
def Resources.try_update_device (st : Resources) (id : Nat)
    (func : Device → Device × Except ApiError Unit) :
    Except ApiError Unit × Resources × List EventBlock :=
  match alistGet st.res id with
  | none => (.error (.notFound id), st, [])
  | some obj =>
    match tryIntoDevice obj with
    | .error e => (.error e, st, [])
    | .ok d =>
      let r := func d
      let st2 := { st with res := alistSet st.res id (.device r.1) }
      match r.2 with
      | .error e => (.error e, st2, [])
      | .ok _ =>
        match Resources.generate_update (.device r.1) with
        | .error e => (.error e, st2, [])
        | .ok none => (.ok (), st2, [])
        | .ok (some delta) => (.ok (), st2, [.update id delta])

/-- `Resources::get::<Light>`: look up by id, filter by the link's type
tag (a mismatch yields `NotFound`, because `filter` feeds `ok_or`), then
convert (`WrongType` when the variant is not a `Light`). -/
def Resources.get_light (st : Resources) (link : ResourceLink) : Except ApiError Light :=
  match alistGet st.res link.rid with
  | none => .error (.notFound link.rid)
  | some obj =>
    if obj.rtype = link.rtype then tryIntoLight obj
    else .error (.notFound link.rid)

/-- Is the outcome a `WrongType` error? -/
def isWrongTypeErr {α : Type} : Except ApiError α → Bool
  | .error (.wrongType _ _) => true
  | _ => false

/-- `Resources::get_resources_by_type`. -/
def Resources.get_resources_by_type (st : Resources) (ty : RType) : List (Nat × Resource) :=
  st.res.filter (fun p => p.2.rtype == ty)

/-- The index set built by `Resources::get_next_scene_id`: the auxiliary
indices of stored scenes whose group equals the room (scenes without aux
data or without an index are skipped). -/
def sceneIndexSet (st : Resources) (room : ResourceLink) : List Nat :=
  (st.get_resources_by_type RType.scene).filterMap (fun p =>
    match p.2 with
    | .scene scn =>
      if scn.group = room then
        match alistGet st.aux p.1 with
        | some ⟨_, some index⟩ => some index
        | _ => none
      else none
    | _ => none)

/-- `Resources::get_next_scene_id`: the first `x` in `0..MAX_SCENE_ID`
not in the index set, else `Full(Scene)`. -/
def Resources.get_next_scene_id (st : Resources) (room : ResourceLink) :
    Except ApiError Nat :=
  match (List.range Resources.MAX_SCENE_ID).find?
      (fun x => ! (sceneIndexSet st room).contains x) with
  | some x => .ok x
  | none => .error (.full RType.scene)

/-- The declarative reading of the index set: `i` is the auxiliary index
of some stored scene of this room. -/
def isSceneIndex (st : Resources) (room : ResourceLink) (i : Nat) : Prop :=
  ∃ id scn, (id, Resource.scene scn) ∈ st.res ∧ scn.group = room ∧
    ∃ aux, alistGet st.aux id = some aux ∧ aux.index = some i

/-- A concrete light payload used by store witnesses. -/
def lightW : Light :=
  { on_ := ⟨false⟩, dimming := ⟨0⟩, color_mode := none,
    color_temperature := ⟨153⟩, color := ⟨⟨0, 0⟩⟩ }

/-- A concrete room link for store witnesses. -/
def roomW : ResourceLink := ⟨9, RType.room⟩

/-- A concrete scene-store with room scenes at auxiliary indices
`{0, 1, 3}` (the spec's §8 scenario 4). -/
def sceneStoreW : Resources :=
  { aux := [(10, ⟨none, some 0⟩), (11, ⟨none, some 1⟩), (12, ⟨none, some 3⟩)],
    res := [(10, .scene ⟨roomW, ⟨none, none, "a"⟩, none⟩),
            (11, .scene ⟨roomW, ⟨none, none, "b"⟩, none⟩),
            (12, .scene ⟨roomW, ⟨none, none, "c"⟩, none⟩)] }

/-! ## Service manager shutdown (`src/crates/svc/src/manager.rs`) -/

/-- `ServiceState`. -/
inductive ServiceState where
  | registered | starting | running | stopping | stopped | failed
  deriving DecidableEq, Repr

/-- The `SvcError` variants reachable from the embedded operations. -/
inductive SvcError where
  | serviceNotFound (id : Nat)
  | serviceAlreadyExists (name : String)
  | serviceFailed
  | shutdown
  deriving DecidableEq, Repr

/-- `ServiceInstance`, restricted to the fields the shutdown path reads:
the unique name and the last observed state.  The watch channel and the
task abort handle carry no registry data; `AbortHandle::abort` acts on
the task only and does not touch the maps. -/
structure ServiceInstance where
  name : String
  state : ServiceState
  deriving DecidableEq, Repr

/-- The `ServiceManager` registry: `svcs : id → instance` and
`names : name → id`, modelled as association lists. -/
structure ServiceManager where
  svcs : List (Nat × ServiceInstance)
  names : List (String × Nat)
  deriving DecidableEq, Repr

/-- `ServiceManager::resolve` on an id handle: registered or
`ServiceNotFound`. -/
def ServiceManager.resolveId (m : ServiceManager) (id : Nat) : Except SvcError Nat :=
  if (m.svcs.find? (fun p => p.1 == id)).isSome then .ok id
  else .error (.serviceNotFound id)

/-- `ServiceManager::remove`: resolve, then drop the service record and
retain only names bound to other ids. -/
def ServiceManager.remove (m : ServiceManager) (id : Nat) : Except SvcError ServiceManager :=
  match m.resolveId id with
  | .error e => .error e
  | .ok id => .ok { svcs := m.svcs.filter (fun p => ! (p.1 == id)),
                    names := m.names.filter (fun p => ! (p.2 == id)) }

/-- `ServiceManager::abort`: `get` the instance (a resolve), abort its
task handle (no registry effect), then `remove` it — unconditionally on
its current state. -/
def ServiceManager.abort (m : ServiceManager) (id : Nat) : Except SvcError ServiceManager :=
  match m.resolveId id with
  | .error e => .error e
  | .ok id => m.remove id

/-- `ServiceManager::list` (the ids captured at the start of the
Shutdown handler). -/
def ServiceManager.list (m : ServiceManager) : List Nat := m.svcs.map (fun p => p.1)

/-- The loop of the Shutdown handler's timeout branch: `for id in &ids {{
self.abort(id)?; }}` — abort *every* captured id, propagating the first
error. -/
def shutdownAbortAll (m : ServiceManager) : List Nat → Except SvcError ServiceManager
  | [] => .ok m
  | id :: rest =>
    match m.abort id with
    | .error e => .error e
    | .ok m2 => shutdownAbortAll m2 rest

/-- The Shutdown handler's timed-out path as a whole (the
`tokio::time::sleep(3s)` arm of the `select!`): capture `self.list()`
and abort each id.  The 3-second real-time wait itself is not modelled;
this is the registry effect of the branch the claim describes. -/
def ServiceManager.shutdownOnTimeout (m : ServiceManager) : Except SvcError ServiceManager :=
  shutdownAbortAll m m.list

/-! ## Theorems and supporting lemmas -/

lemma readU8_cons (b : Nat) (l : List Nat) : readU8 (b :: l) = .ok (b, l) := rfl

lemma readU8_write (v : Nat) (hv : v < 256) (l : List Nat) :
    readU8 (writeU8 v ++ l) = .ok (v, l) := by
  simp [writeU8, readU8, Nat.mod_eq_of_lt hv]

lemma readU16LE_cons (b0 b1 : Nat) (l : List Nat) :
    readU16LE (b0 :: b1 :: l) = .ok (b0 + 256 * b1, l) := rfl

lemma readU16LE_write (n : Nat) (hn : n < 65536) (l : List Nat) :
    readU16LE (writeU16LE n ++ l) = .ok (n, l) := by
  have h : n % 256 + 256 * (n / 256 % 256) = n := by omega
  have hw : writeU16LE n ++ l = n % 256 :: (n / 256 % 256) :: l := rfl
  rw [hw, readU16LE_cons, h]

lemma readBytes_append (l1 l2 : List Nat) :
    readBytes l1.length (l1 ++ l2) = .ok (l1, l2) := by
  simp [readBytes]

lemma takeFlag_split (k b m r : Nat) (hb : b ≤ 1) (hr : r < 2 ^ k) :
    takeFlag (2 ^ (k + 1) * m + 2 ^ k * b + r) (2 ^ k) = (b == 1, 2 ^ (k + 1) * m + r) := by
  have hp : 0 < 2 ^ k := Nat.pos_pow_of_pos _ (by norm_num)
  have hdiv : (2 ^ (k + 1) * m + 2 ^ k * b + r) / 2 ^ k = 2 * m + b := by
    have h1 : 2 ^ (k + 1) * m + 2 ^ k * b + r = 2 ^ k * (2 * m + b) + r := by ring
    rw [h1, Nat.mul_add_div hp, Nat.div_eq_of_lt hr, Nat.add_zero]
  have hand : (2 ^ (k + 1) * m + 2 ^ k * b + r) &&& 2 ^ k = b * 2 ^ k := by
    rw [Nat.and_two_pow, Nat.testBit_to_div_mod, hdiv]
    rcases Nat.le_one_iff_eq_zero_or_eq_one.mp hb with h | h <;> subst h <;> simp <;> omega
  unfold takeFlag
  rw [hand]
  rcases Nat.le_one_iff_eq_zero_or_eq_one.mp hb with h | h <;> subst h
  · simp
  · have h2 : 2 ^ (k + 1) * m + 2 ^ k + r - 2 ^ k = 2 ^ (k + 1) * m + r := by omega
    simp [hp.ne', h2]

lemma flagsWord_eq (hz : HueZigbeeUpdate) :
    flagsWord hz =
      (if hz.onoff.isSome then 1 else 0) +
        2 * ((if hz.brightness.isSome then 1 else 0) +
        2 * ((if hz.color_mirek.isSome then 1 else 0) +
        2 * ((if hz.color_xy.isSome then 1 else 0) +
        2 * ((if hz.unk0.isSome then 1 else 0) +
        2 * ((if hz.effect_type.isSome then 1 else 0) +
        2 * ((if hz.gradient_params.isSome then 1 else 0) +
        2 * ((if hz.effect_speed.isSome then 1 else 0) +
        2 * (if hz.gradient_colors.isSome then 1 else 0)))))))) := by
  obtain ⟨o, b, m, xy, u, gc, gp, et, es⟩ := hz
  cases o <;> cases b <;> cases m <;> cases xy <;> cases u <;> cases gc <;> cases gp <;>
    cases et <;> cases es <;> simp [flagsWord, opt_to_flag, Flags.ON_OFF, Flags.BRIGHTNESS,
      Flags.COLOR_MIREK, Flags.COLOR_XY, Flags.UNKNOWN_0, Flags.EFFECT_TYPE,
      Flags.GRADIENT_PARAMS, Flags.EFFECT_SPEED, Flags.GRADIENT_COLORS]

lemma bind_ok {α β : Type} (a : α) (f : α → Except ApiError β) :
    (Except.ok a >>= f) = f a := rfl

lemma bind_pure_arg {α β : Type} (a : α) (f : α → Except ApiError β) :
    (Except.pure a >>= f) = f a := rfl

lemma pure_eq_ok {α : Type} (a : α) : (pure a : Except ApiError α) = .ok a := rfl

lemma rustCastU16_grid (k n : Nat) (hk : k ≤ n) (h2 : k ≤ 65535) (hn : 0 < n) :
    rustCastU16 ((k : ℚ) / (n : ℚ) * (n : ℚ)) = k := by
  have hne : (n : ℚ) ≠ 0 := Nat.cast_ne_zero.mpr hn.ne'
  rw [div_mul_cancel₀ _ hne]
  unfold rustCastU16
  rw [Int.floor_natCast]
  simp [min_eq_right h2]

lemma pointBytesXY12_eq (p : XY) (kx ky : Nat) (hkx : kx ≤ 4095) (hky : ky ≤ 4095)
    (hx : p.x = (kx : ℚ) / 4095) (hy : p.y = (ky : ℚ) / 4095) :
    pointBytesXY12 p = [kx % 256, kx / 256 + 16 * (ky % 16), ky / 16] := by
  have hxv : rustCastU16 (p.x * 4095) = kx := by
    rw [hx]
    exact_mod_cast rustCastU16_grid kx 4095 hkx (by omega) (by norm_num)
  have hyv : rustCastU16 (p.y * 4095) = ky := by
    rw [hy]
    exact_mod_cast rustCastU16_grid ky 4095 hky (by omega) (by norm_num)
  simp [pointBytesXY12, hxv, hyv]

lemma packPointsXY12_wf (pts : List XY) (h : ∀ p ∈ pts, WfPoint4095 p) :
    packPointsXY12 pts = .ok (pointsBytes pts) := by
  induction pts with
  | nil => rfl
  | cons p ps ih =>
    obtain ⟨⟨kx, hkx, hx⟩, ⟨ky, hky, hy⟩⟩ := h p (List.mem_cons_self p ps)
    have hxv : rustCastU16 (p.x * 4095) = kx := by
      rw [hx]
      exact_mod_cast rustCastU16_grid kx 4095 hkx (by omega) (by norm_num)
    have hyv : rustCastU16 (p.y * 4095) = ky := by
      rw [hy]
      exact_mod_cast rustCastU16_grid ky 4095 hky (by omega) (by norm_num)
    have hih := ih (fun q hq => h q (List.mem_cons_of_mem _ hq))
    have hpack : packXY12 kx ky = .ok [kx % 256, kx / 256 + 16 * (ky % 16), ky / 16] := by
      rw [packXY12, if_pos ⟨by omega, by omega⟩]
    rw [packPointsXY12, hxv, hyv, hpack, bind_ok, hih, bind_ok]
    rw [pointsBytes, pointBytesXY12_eq p kx ky hkx hky hx hy]
    rfl

lemma readGradientPoints_bytes (pts : List XY) (h : ∀ p ∈ pts, WfPoint4095 p) (l : List Nat) :
    readGradientPoints pts.length (pointsBytes pts ++ l) = .ok (pts, l) := by
  induction pts with
  | nil => simp [pointsBytes, readGradientPoints]
  | cons p ps ih =>
    obtain ⟨⟨kx, hkx, hx⟩, ⟨ky, hky, hy⟩⟩ := h p (List.mem_cons_self p ps)
    have hih := ih (fun q hq => h q (List.mem_cons_of_mem _ hq))
    have hbytes := pointBytesXY12_eq p kx ky hkx hky hx hy
    have hlen : (pointBytesXY12 p).length = 3 := by rw [hbytes]; rfl
    have hrd : readBytes 3 (pointBytesXY12 p ++ (pointsBytes ps ++ l))
        = .ok (pointBytesXY12 p, pointsBytes ps ++ l) := by
      rw [← hlen]
      exact readBytes_append _ _
    have hx1 : kx % 256 + 256 * ((kx / 256 + 16 * (ky % 16)) % 16) = kx := by omega
    have hy1 : (kx / 256 + 16 * (ky % 16)) / 16 + 16 * (ky / 16) = ky := by omega
    have hunp : unpackXY12 (pointBytesXY12 p) = .ok (kx, ky) := by
      rw [hbytes, unpackXY12, hx1, hy1]
    have hpt : XY.mk ((kx : ℚ) / 4095) ((ky : ℚ) / 4095) = p := by
      cases p
      simp_all
    show readGradientPoints (ps.length + 1) (pointBytesXY12 p ++ (pointsBytes ps ++ l)) = _
    simp only [readGradientPoints, hrd, bind_ok, hunp, hih, hpt]
    rfl

lemma headerBytes_pack (hd : GradientUpdateHeader) (h1 : hd.nlights < 16) (h0 : hd.resv0 < 16) :
    GradientUpdateHeader.pack hd = .ok (headerBytes hd) := by
  rw [GradientUpdateHeader.pack, if_pos ⟨h1, h0⟩, headerBytes]

lemma headerBytes_unpack (hd : GradientUpdateHeader) (h1 : hd.nlights < 16)
    (h0 : hd.resv0 < 16) (hr1 : hd.resv1 < 256) (hr2 : hd.resv2 < 65536) :
    GradientUpdateHeader.unpack_from_slice (headerBytes hd) = .ok hd := by
  obtain ⟨n, r0, r1, r2⟩ := hd
  simp only [headerBytes, GradientUpdateHeader.unpack_from_slice] at *
  congr 1
  congr 1 <;> omega

lemma effectType_roundtrip (t : EffectType) :
    EffectType.from_primitive t.to_primitive = some t := by
  cases t <;> rfl

lemma effectType_to_primitive_lt (t : EffectType) : t.to_primitive < 256 := by
  cases t <;> norm_num [EffectType.to_primitive]

lemma takeFlag_flat (k b m r flags out : Nat) (tv : Bool) (hb : b ≤ 1) (hr : r < 2 ^ k)
    (hf : flags = 2 ^ (k + 1) * m + 2 ^ k * b + r) (hout : out = 2 ^ (k + 1) * m + r)
    (htv : tv = (b == 1)) : takeFlag flags (2 ^ k) = (tv, out) := by
  subst hf
  subst hout
  subst htv
  exact takeFlag_split k b m r hb hr

lemma tf_bit0_true (M : Nat) : takeFlag (1 + 2 * M) 1 = (true, 2 * M) :=
  takeFlag_flat 0 1 M 0 (1 + 2 * M) (2 * M) true (by norm_num) (by norm_num)
    (by ring) (by ring) (by norm_num)

lemma tf_bit0_false (M : Nat) : takeFlag (2 * M) 1 = (false, 2 * M) :=
  takeFlag_flat 0 0 M 0 (2 * M) (2 * M) false (by norm_num) (by norm_num)
    (by ring) (by ring) (by norm_num)

lemma tf_bit1_true (M : Nat) : takeFlag (2 + 4 * M) 2 = (true, 4 * M) :=
  takeFlag_flat 1 1 M 0 (2 + 4 * M) (4 * M) true (by norm_num) (by norm_num)
    (by ring) (by ring) (by norm_num)

lemma tf_bit1_false (M : Nat) : takeFlag (4 * M) 2 = (false, 4 * M) :=
  takeFlag_flat 1 0 M 0 (4 * M) (4 * M) false (by norm_num) (by norm_num)
    (by ring) (by ring) (by norm_num)

lemma tf_bit2_true (M : Nat) : takeFlag (4 + 8 * M) 4 = (true, 8 * M) :=
  takeFlag_flat 2 1 M 0 (4 + 8 * M) (8 * M) true (by norm_num) (by norm_num)
    (by ring) (by ring) (by norm_num)

lemma tf_bit2_false (M : Nat) : takeFlag (8 * M) 4 = (false, 8 * M) :=
  takeFlag_flat 2 0 M 0 (8 * M) (8 * M) false (by norm_num) (by norm_num)
    (by ring) (by ring) (by norm_num)

lemma tf_bit3_true (M : Nat) : takeFlag (8 + 16 * M) 8 = (true, 16 * M) :=
  takeFlag_flat 3 1 M 0 (8 + 16 * M) (16 * M) true (by norm_num) (by norm_num)
    (by ring) (by ring) (by norm_num)

lemma tf_bit3_false (M : Nat) : takeFlag (16 * M) 8 = (false, 16 * M) :=
  takeFlag_flat 3 0 M 0 (16 * M) (16 * M) false (by norm_num) (by norm_num)
    (by ring) (by ring) (by norm_num)

lemma tf_bit4_true (M : Nat) : takeFlag (16 + 32 * M) 16 = (true, 32 * M) :=
  takeFlag_flat 4 1 M 0 (16 + 32 * M) (32 * M) true (by norm_num) (by norm_num)
    (by ring) (by ring) (by norm_num)

lemma tf_bit4_false (M : Nat) : takeFlag (32 * M) 16 = (false, 32 * M) :=
  takeFlag_flat 4 0 M 0 (32 * M) (32 * M) false (by norm_num) (by norm_num)
    (by ring) (by ring) (by norm_num)

lemma tf_bit5_true (M : Nat) : takeFlag (32 + 64 * M) 32 = (true, 64 * M) :=
  takeFlag_flat 5 1 M 0 (32 + 64 * M) (64 * M) true (by norm_num) (by norm_num)
    (by ring) (by ring) (by norm_num)

lemma tf_bit5_false (M : Nat) : takeFlag (64 * M) 32 = (false, 64 * M) :=
  takeFlag_flat 5 0 M 0 (64 * M) (64 * M) false (by norm_num) (by norm_num)
    (by ring) (by ring) (by norm_num)

lemma tf_bit8_true (a b : Nat) (ha : a ≤ 1) (hb : b ≤ 1) :
    takeFlag (64 * a + 128 * b + 256) 256 = (true, 64 * a + 128 * b) :=
  takeFlag_flat 8 1 0 (64 * a + 128 * b) (64 * a + 128 * b + 256) (64 * a + 128 * b) true
    (by norm_num) (by norm_num; omega) (by ring) (by ring) (by norm_num)

lemma tf_bit8_false (a b : Nat) (ha : a ≤ 1) (hb : b ≤ 1) :
    takeFlag (64 * a + 128 * b) 256 = (false, 64 * a + 128 * b) :=
  takeFlag_flat 8 0 0 (64 * a + 128 * b) (64 * a + 128 * b) (64 * a + 128 * b) false
    (by norm_num) (by norm_num; omega) (by ring) (by ring) (by norm_num)

lemma tf_bit7_true (a : Nat) (ha : a ≤ 1) :
    takeFlag (64 * a + 128) 128 = (true, 64 * a) :=
  takeFlag_flat 7 1 0 (64 * a) (64 * a + 128) (64 * a) true
    (by norm_num) (by norm_num; omega) (by ring) (by ring) (by norm_num)

lemma tf_bit7_false (a : Nat) (ha : a ≤ 1) :
    takeFlag (64 * a) 128 = (false, 64 * a) :=
  takeFlag_flat 7 0 0 (64 * a) (64 * a) (64 * a) false
    (by norm_num) (by norm_num; omega) (by ring) (by ring) (by norm_num)

lemma tf_bit6_true : takeFlag 64 64 = (true, 0) :=
  takeFlag_flat 6 1 0 0 64 0 true (by norm_num) (by norm_num)
    (by ring) (by ring) (by norm_num)

lemma tf_bit6_false : takeFlag 0 64 = (false, 0) :=
  takeFlag_flat 6 0 0 0 0 0 false (by norm_num) (by norm_num)
    (by ring) (by ring) (by norm_num)

lemma frOnOff_step (x : Option Nat) (M : Nat)
    (acc : HueZigbeeUpdate) (hacc : acc.onoff = none) (l seg : List Nat)
    (hseg : seg = match x with | some v => writeU8 v | none => ([] : List Nat))
    (hx : ∀ v ∈ x, v < 256) :
    frOnOff ((if x.isSome then 1 else 0) + 2 * M) acc (seg ++ l)
      = frBrightness (2 * M) { acc with onoff := x } l := by
  subst hseg
  cases x with
  | none =>
    have hsame : { acc with onoff := none } = acc := by
      obtain ⟨o, b, m, xy, u, gc, gp, et, es⟩ := acc
      simp_all
    simp only [Option.isSome_none, if_neg Bool.false_ne_true, Nat.zero_add, List.nil_append,
      frOnOff, Flags.ON_OFF, tf_bit0_false, hsame]
  | some v =>
    have hv : v < 256 := hx v rfl
    simp only [Option.isSome_some, if_true, frOnOff, Flags.ON_OFF, tf_bit0_true,
      readU8_write v hv l, bind_ok]

lemma frBrightness_step (x : Option Nat) (M : Nat)
    (acc : HueZigbeeUpdate) (hacc : acc.brightness = none) (l seg : List Nat)
    (hseg : seg = match x with | some v => writeU8 v | none => ([] : List Nat))
    (hx : ∀ v ∈ x, v < 256) :
    frBrightness (2 * ((if x.isSome then 1 else 0) + 2 * M)) acc (seg ++ l)
      = frColorMirek (4 * M) { acc with brightness := x } l := by
  subst hseg
  cases x with
  | none =>
    have hsame : { acc with brightness := none } = acc := by
      obtain ⟨o, b, m, xy, u, gc, gp, et, es⟩ := acc
      simp_all
    rw [show (2 * ((if (none : Option Nat).isSome then 1 else 0) + 2 * M) : Nat) = 4 * M from by
      simp; ring]
    simp only [List.nil_append, frBrightness, Flags.BRIGHTNESS, tf_bit1_false, hsame]
  | some v =>
    have hv : v < 256 := hx v rfl
    rw [show (2 * ((if (some v).isSome then 1 else 0) + 2 * M) : Nat) = 2 + 4 * M from by
      simp; ring]
    simp only [frBrightness, Flags.BRIGHTNESS, tf_bit1_true, readU8_write v hv l, bind_ok]

lemma frColorMirek_step (x : Option Nat) (M : Nat)
    (acc : HueZigbeeUpdate) (hacc : acc.color_mirek = none) (l seg : List Nat)
    (hseg : seg = match x with | some v => writeU16LE v | none => ([] : List Nat))
    (hx : ∀ v ∈ x, v < 65536) :
    frColorMirek (4 * ((if x.isSome then 1 else 0) + 2 * M)) acc (seg ++ l)
      = frColorXY (8 * M) { acc with color_mirek := x } l := by
  subst hseg
  cases x with
  | none =>
    have hsame : { acc with color_mirek := none } = acc := by
      obtain ⟨o, b, m, xy, u, gc, gp, et, es⟩ := acc
      simp_all
    rw [show (4 * ((if (none : Option Nat).isSome then 1 else 0) + 2 * M) : Nat) = 8 * M from by
      simp; ring]
    simp only [List.nil_append, frColorMirek, Flags.COLOR_MIREK, tf_bit2_false, hsame]
  | some v =>
    have hv : v < 65536 := hx v rfl
    rw [show (4 * ((if (some v).isSome then 1 else 0) + 2 * M) : Nat) = 4 + 8 * M from by
      simp; ring]
    simp only [frColorMirek, Flags.COLOR_MIREK, tf_bit2_true, readU16LE_write v hv l, bind_ok]

lemma frColorXY_step (x : Option XY) (M : Nat)
    (acc : HueZigbeeUpdate) (hacc : acc.color_xy = none) (l seg : List Nat)
    (hseg : seg = match x with
      | some xy => writeU16LE (rustCastU16 (xy.x * 65535)) ++ writeU16LE (rustCastU16 (xy.y * 65535))
      | none => ([] : List Nat))
    (hx : ∀ p ∈ x, WfXY65535 p) :
    frColorXY (8 * ((if x.isSome then 1 else 0) + 2 * M)) acc (seg ++ l)
      = frUnk0 (16 * M) { acc with color_xy := x } l := by
  subst hseg
  cases x with
  | none =>
    have hsame : { acc with color_xy := none } = acc := by
      obtain ⟨o, b, m, xy, u, gc, gp, et, es⟩ := acc
      simp_all
    rw [show (8 * ((if (none : Option XY).isSome then 1 else 0) + 2 * M) : Nat) = 16 * M from by
      simp; ring]
    simp only [List.nil_append, frColorXY, Flags.COLOR_XY, tf_bit3_false, hsame]
  | some p =>
    obtain ⟨⟨kx, hkx, hpx⟩, ⟨ky, hky, hpy⟩⟩ := hx p rfl
    have hxv : rustCastU16 (p.x * 65535) = kx := by
      rw [hpx]
      exact_mod_cast rustCastU16_grid kx 65535 hkx hkx (by norm_num)
    have hyv : rustCastU16 (p.y * 65535) = ky := by
      rw [hpy]
      exact_mod_cast rustCastU16_grid ky 65535 hky hky (by norm_num)
    have hpt : XY.new ((kx : ℚ) / 65535) ((ky : ℚ) / 65535) = p := by
      cases p
      simp_all [XY.new]
    rw [show (8 * ((if (some p).isSome then 1 else 0) + 2 * M) : Nat) = 8 + 16 * M from by
      simp; ring]
    rw [List.append_assoc]
    simp only [frColorXY, Flags.COLOR_XY, tf_bit3_true, hxv, hyv,
      readU16LE_write kx (by omega) _, readU16LE_write ky (by omega) l, bind_ok, hpt]

lemma frUnk0_step (x : Option Nat) (M : Nat)
    (acc : HueZigbeeUpdate) (hacc : acc.unk0 = none) (l seg : List Nat)
    (hseg : seg = match x with | some v => writeU16LE v | none => ([] : List Nat))
    (hx : ∀ v ∈ x, v < 65536) :
    frUnk0 (16 * ((if x.isSome then 1 else 0) + 2 * M)) acc (seg ++ l)
      = frEffectType (32 * M) { acc with unk0 := x } l := by
  subst hseg
  cases x with
  | none =>
    have hsame : { acc with unk0 := none } = acc := by
      obtain ⟨o, b, m, xy, u, gc, gp, et, es⟩ := acc
      simp_all
    rw [show (16 * ((if (none : Option Nat).isSome then 1 else 0) + 2 * M) : Nat) = 32 * M from by
      simp; ring]
    simp only [List.nil_append, frUnk0, Flags.UNKNOWN_0, tf_bit4_false, hsame]
  | some v =>
    have hv : v < 65536 := hx v rfl
    rw [show (16 * ((if (some v).isSome then 1 else 0) + 2 * M) : Nat) = 16 + 32 * M from by
      simp; ring]
    simp only [frUnk0, Flags.UNKNOWN_0, tf_bit4_true, readU16LE_write v hv l, bind_ok]

lemma frEffectType_step (x : Option EffectType) (M : Nat)
    (acc : HueZigbeeUpdate) (hacc : acc.effect_type = none) (l seg : List Nat)
    (hseg : seg = match x with | some t => writeU8 t.to_primitive | none => ([] : List Nat)) :
    frEffectType (32 * ((if x.isSome then 1 else 0) + 2 * M)) acc (seg ++ l)
      = frGradientColors (64 * M) { acc with effect_type := x } l := by
  subst hseg
  cases x with
  | none =>
    have hsame : { acc with effect_type := none } = acc := by
      obtain ⟨o, b, m, xy, u, gc, gp, et, es⟩ := acc
      simp_all
    rw [show (32 * ((if (none : Option EffectType).isSome then 1 else 0) + 2 * M) : Nat)
        = 64 * M from by simp; ring]
    simp only [List.nil_append, frEffectType, Flags.EFFECT_TYPE, tf_bit5_false, hsame]
  | some t =>
    rw [show (32 * ((if (some t).isSome then 1 else 0) + 2 * M) : Nat) = 32 + 64 * M from by
      simp; ring]
    simp only [frEffectType, Flags.EFFECT_TYPE, tf_bit5_true,
      readU8_write t.to_primitive (effectType_to_primitive_lt t) l, bind_ok,
      effectType_roundtrip t]

lemma frGradientColors_step (x : Option GradientColors)
    (a b : Nat) (ha : a ≤ 1) (hb : b ≤ 1)
    (acc : HueZigbeeUpdate) (hacc : acc.gradient_colors = none) (l seg : List Nat)
    (hseg : seg = match x with | some gc => bytesOfGC gc | none => ([] : List Nat))
    (hx : ∀ gc ∈ x, WfGradientColors gc) :
    frGradientColors (64 * (a + 2 * (b + 2 * (if x.isSome then 1 else 0)))) acc (seg ++ l)
      = frEffectSpeed (64 * a + 128 * b) { acc with gradient_colors := x } l := by
  subst hseg
  cases x with
  | none =>
    have hsame : { acc with gradient_colors := none } = acc := by
      obtain ⟨o, bb, m, xy, u, gc, gp, et, es⟩ := acc
      simp_all
    rw [show (64 * (a + 2 * (b + 2 * (if (none : Option GradientColors).isSome then 1 else 0)))
        : Nat) = 64 * a + 128 * b from by simp; ring]
    simp only [List.nil_append, frGradientColors, Flags.GRADIENT_COLORS,
      tf_bit8_false a b ha hb, hsame]
  | some gc =>
    obtain ⟨hlen, hn16, hr0, hr1, hr2, hpts⟩ := hx gc rfl
    have hlt : 4 + 3 * gc.points.length < 256 := by omega
    have heta : GradientColors.mk gc.header gc.points = gc := rfl
    rw [show (64 * (a + 2 * (b + 2 * (if (some gc).isSome then 1 else 0))) : Nat)
        = 64 * a + 128 * b + 256 from by simp; ring]
    have hrd4 : readBytes 4 (headerBytes gc.header ++ (pointsBytes gc.points ++ l))
        = .ok (headerBytes gc.header, pointsBytes gc.points ++ l) := by
      rw [show (4 : Nat) = (headerBytes gc.header).length from rfl]
      exact readBytes_append _ _
    have hgp : readGradientPoints gc.header.nlights (pointsBytes gc.points ++ l)
        = .ok (gc.points, l) := by
      rw [hlen]
      exact readGradientPoints_bytes gc.points hpts l
    simp only [bytesOfGC, List.append_assoc]
    simp only [frGradientColors, Flags.GRADIENT_COLORS, tf_bit8_true a b ha hb,
      readU8_write _ hlt _, bind_ok, hrd4,
      headerBytes_unpack gc.header hn16 hr0 hr1 hr2, hgp, heta]

lemma frEffectSpeed_step (x : Option Nat) (a : Nat) (ha : a ≤ 1)
    (acc : HueZigbeeUpdate) (hacc : acc.effect_speed = none) (l seg : List Nat)
    (hseg : seg = match x with | some v => writeU8 v | none => ([] : List Nat))
    (hx : ∀ v ∈ x, v < 256) :
    frEffectSpeed (64 * a + 128 * (if x.isSome then 1 else 0)) acc (seg ++ l)
      = frGradientParams (64 * a) { acc with effect_speed := x } l := by
  subst hseg
  cases x with
  | none =>
    have hsame : { acc with effect_speed := none } = acc := by
      obtain ⟨o, bb, m, xy, u, gc, gp, et, es⟩ := acc
      simp_all
    rw [show (64 * a + 128 * (if (none : Option Nat).isSome then 1 else 0) : Nat) = 64 * a
      from by simp]
    simp only [List.nil_append, frEffectSpeed, Flags.EFFECT_SPEED, tf_bit7_false a ha, hsame]
  | some v =>
    have hv : v < 256 := hx v rfl
    rw [show (64 * a + 128 * (if (some v).isSome then 1 else 0) : Nat) = 64 * a + 128
      from by simp]
    simp only [frEffectSpeed, Flags.EFFECT_SPEED, tf_bit7_true a ha,
      readU8_write v hv l, bind_ok]

lemma frGradientParams_step (x : Option GradientParams)
    (acc : HueZigbeeUpdate) (hacc : acc.gradient_params = none) (l seg : List Nat)
    (hseg : seg = match x with
      | some p => writeU8 p.scale ++ writeU8 p.offset
      | none => ([] : List Nat))
    (hx : ∀ gp ∈ x, gp.scale < 256 ∧ gp.offset < 256) :
    frGradientParams (64 * (if x.isSome then 1 else 0)) acc (seg ++ l)
      = .ok ({ acc with gradient_params := x }, l) := by
  subst hseg
  cases x with
  | none =>
    have hsame : { acc with gradient_params := none } = acc := by
      obtain ⟨o, bb, m, xy, u, gc, gp, et, es⟩ := acc
      simp_all
    rw [show (64 * (if (none : Option GradientParams).isSome then 1 else 0) : Nat) = 0
      from by simp]
    simp only [List.nil_append, frGradientParams, Flags.GRADIENT_PARAMS, tf_bit6_false,
      hsame, frFinish, if_true]
  | some p =>
    obtain ⟨hs, ho⟩ := hx p rfl
    have heta : GradientParams.mk p.scale p.offset = p := rfl
    rw [show (64 * (if (some p).isSome then 1 else 0) : Nat) = 64 from by simp]
    rw [List.append_assoc]
    simp only [frGradientParams, Flags.GRADIENT_PARAMS, tf_bit6_true,
      readU8_write p.scale hs _, readU8_write p.offset ho l, bind_ok, frFinish, heta, if_true]

lemma flagsWord_lt (hz : HueZigbeeUpdate) : flagsWord hz < 65536 := by
  rw [flagsWord_eq]
  have b1 : (if hz.onoff.isSome then 1 else 0) ≤ 1 := by split <;> norm_num
  have b2 : (if hz.brightness.isSome then 1 else 0) ≤ 1 := by split <;> norm_num
  have b3 : (if hz.color_mirek.isSome then 1 else 0) ≤ 1 := by split <;> norm_num
  have b4 : (if hz.color_xy.isSome then 1 else 0) ≤ 1 := by split <;> norm_num
  have b5 : (if hz.unk0.isSome then 1 else 0) ≤ 1 := by split <;> norm_num
  have b6 : (if hz.effect_type.isSome then 1 else 0) ≤ 1 := by split <;> norm_num
  have b7 : (if hz.gradient_params.isSome then 1 else 0) ≤ 1 := by split <;> norm_num
  have b8 : (if hz.effect_speed.isSome then 1 else 0) ≤ 1 := by split <;> norm_num
  have b9 : (if hz.gradient_colors.isSome then 1 else 0) ≤ 1 := by split <;> norm_num
  omega

lemma serialize_wf_eq (hz : HueZigbeeUpdate) (hwf : hz.Wf) :
    hz.serialize = .ok (serializedBytes hz) := by
  obtain ⟨h1, h2, h3, h4, h5, h6, h7, h8⟩ := hwf
  cases hgc : hz.gradient_colors with
  | none =>
    simp only [HueZigbeeUpdate.serialize, hgc, serializedBytes, segOnOff, segBrightness,
      segColorMirek, segColorXY, segUnk0, segEffectType, segGradientColors, segEffectSpeed,
      segGradientParams, List.append_nil, bind_pure_arg, pure_eq_ok, bind_ok]
  | some gc =>
    have hmem : gc ∈ hz.gradient_colors := by rw [hgc]; rfl
    obtain ⟨hlen, hn16, hr0, hr1, hr2, hpts⟩ := h6 gc hmem
    have hlt : 4 + 3 * gc.points.length < 256 := by omega
    simp only [HueZigbeeUpdate.serialize, hgc, serializedBytes, segOnOff, segBrightness,
      segColorMirek, segColorXY, segUnk0, segEffectType, segGradientColors, segEffectSpeed,
      segGradientParams, bytesOfGC, if_pos hlt, headerBytes_pack gc.header hn16 hr0,
      packPointsXY12_wf gc.points hpts, bind_ok, bind_pure_arg, pure_eq_ok,
      List.append_assoc]

lemma from_reader_cons (w : Nat) (hw : w < 65536) (l : List Nat) :
    HueZigbeeUpdate.from_reader (writeU16LE w ++ l) = frOnOff w HueZigbeeUpdate.new l := by
  rw [HueZigbeeUpdate.from_reader, readU16LE_write w hw l, bind_ok]

lemma from_reader_serializedBytes (hz : HueZigbeeUpdate) (hwf : hz.Wf) (tail : List Nat) :
    HueZigbeeUpdate.from_reader (serializedBytes hz ++ tail) = .ok (hz, tail) := by
  obtain ⟨h1, h2, h3, h4, h5, h6, h7, h8⟩ := hwf
  have ha : (if hz.gradient_params.isSome then 1 else 0) ≤ 1 := by split <;> norm_num
  have hb : (if hz.effect_speed.isSome then 1 else 0) ≤ 1 := by split <;> norm_num
  rw [serializedBytes]
  simp only [List.append_assoc]
  rw [segOnOff, segBrightness, segColorMirek, segColorXY, segUnk0, segEffectType,
    segGradientColors, segEffectSpeed, segGradientParams,
    from_reader_cons _ (flagsWord_lt hz), flagsWord_eq]
  rw [frOnOff_step hz.onoff _ HueZigbeeUpdate.new rfl _ _ rfl h1]
  rw [frBrightness_step hz.brightness _ _ rfl _ _ rfl h2]
  rw [frColorMirek_step hz.color_mirek _ _ rfl _ _ rfl h3]
  rw [frColorXY_step hz.color_xy _ _ rfl _ _ rfl h4]
  rw [frUnk0_step hz.unk0 _ _ rfl _ _ rfl h5]
  rw [frEffectType_step hz.effect_type _ _ rfl _ _ rfl]
  rw [frGradientColors_step hz.gradient_colors _ _ ha hb _ rfl _ _ rfl h6]
  rw [frEffectSpeed_step hz.effect_speed _ ha _ rfl _ _ rfl h8]
  rw [frGradientParams_step hz.gradient_params _ rfl _ _ rfl h7]

/-- C1 (amended): for every well-formed `HueZigbeeUpdate` whose color
coordinates lie exactly on the wire grids (`k / 0xFFFF` for COLOR_XY,
`k / 0xFFF` for gradient points), serializing with
`HueZigbeeUpdate::serialize` and deserializing the produced bytes with
`HueZigbeeUpdate::from_reader` yields the original value (with no bytes
left over).  As literally stated, the claim fails on off-grid
coordinates: see the counterexample. -/
theorem C1_serialize_from_reader_roundtrip (hz : HueZigbeeUpdate) (hwf : hz.Wf) :
    ∃ bytes, hz.serialize = .ok bytes ∧
      HueZigbeeUpdate.from_reader bytes = .ok (hz, []) :=
  ⟨serializedBytes hz, serialize_wf_eq hz hwf, by
    have h := from_reader_serializedBytes hz hwf []
    rwa [List.append_nil] at h⟩

/-- `hzWitness` is well-formed. -/
lemma hzWitness_wf : hzWitness.Wf := by
  refine ⟨fun v hv => by simp_all [hzWitness]; omega, fun v hv => by simp_all [hzWitness]; omega,
    fun v hv => by simp_all [hzWitness]; omega, fun p hp => ?_,
    fun v hv => by simp_all [hzWitness]; omega, fun gc hgc => ?_,
    fun gp hgp => ?_, fun v hv => by simp_all [hzWitness]; omega⟩
  · simp only [hzWitness, Option.mem_def, Option.some_inj] at hp
    subst hp
    exact ⟨⟨13107, by norm_num, by norm_num⟩, ⟨1, by norm_num, by norm_num⟩⟩
  · simp only [hzWitness, Option.mem_def, Option.some_inj] at hgc
    subst hgc
    refine ⟨rfl, by norm_num, by norm_num, by norm_num, by norm_num, ?_⟩
    intro p hp
    simp only [List.mem_singleton] at hp
    subst hp
    exact ⟨⟨1, by norm_num, by norm_num⟩, ⟨0, by norm_num, by norm_num⟩⟩
  · simp only [hzWitness, Option.mem_def, Option.some_inj] at hgp
    subst hgp
    norm_num

/-- Witness for C1: a concrete update with every field present is
well-formed and round-trips. -/
theorem C1_serialize_from_reader_roundtrip_witness :
    hzWitness.Wf ∧ ∃ bytes, hzWitness.serialize = .ok bytes ∧
      HueZigbeeUpdate.from_reader bytes = .ok (hzWitness, []) :=
  ⟨hzWitness_wf, C1_serialize_from_reader_roundtrip hzWitness hzWitness_wf⟩

lemma floor_half_scaled : (⌊((1:ℚ) / 2 * 65535)⌋ : ℤ) = 32767 := by
  rw [Int.floor_eq_iff] <;> norm_num

lemma rustCast_half : rustCastU16 ((1 : ℚ) / 2 * 65535) = 32767 := by
  rw [rustCastU16, floor_half_scaled]
  rfl

lemma serialize_half_xy :
    HueZigbeeUpdate.serialize { color_xy := some ⟨1 / 2, 1 / 2⟩ }
        = .ok [8, 0, 255, 127, 255, 127] := by
  simp only [HueZigbeeUpdate.serialize, flagsWord, opt_to_flag, Option.isSome_some,
    Option.isSome_none, if_true, Bool.false_eq_true, if_false, bind_pure_arg, pure_eq_ok,
    bind_ok, rustCast_half, writeU16LE, writeU8]
  norm_num [Flags.COLOR_XY]

lemma serializedBytes_decoded_half :
    serializedBytes { color_xy := some ⟨32767 / 65535, 32767 / 65535⟩ }
      = [8, 0, 255, 127, 255, 127] := by
  have hc : rustCastU16 ((32767 : ℚ) / 65535 * 65535) = 32767 := by
    have h := rustCastU16_grid 32767 65535 (by norm_num) (by norm_num) (by norm_num)
    norm_num at h
    convert h using 3 <;> norm_num
  simp only [serializedBytes, flagsWord, opt_to_flag, Option.isSome_some, Option.isSome_none,
    if_true, Bool.false_eq_true, if_false, segOnOff, segBrightness, segColorMirek, segColorXY,
    segUnk0, segEffectType, segGradientColors, segEffectSpeed, segGradientParams,
    hc, writeU16LE, writeU8]
  norm_num [Flags.COLOR_XY]

lemma decoded_half_wf :
    ({ color_xy := some ⟨32767 / 65535, 32767 / 65535⟩ } : HueZigbeeUpdate).Wf := by
  refine ⟨fun v hv => by simp_all, fun v hv => by simp_all, fun v hv => by simp_all,
    fun p hp => ?_, fun v hv => by simp_all, fun gc hgc => by simp_all,
    fun gp hgp => by simp_all, fun v hv => by simp_all⟩
  simp only [Option.mem_def, Option.some_inj] at hp
  subst hp
  exact ⟨⟨32767, by norm_num, by norm_num⟩, ⟨32767, by norm_num, by norm_num⟩⟩

lemma from_reader_half_bytes :
    HueZigbeeUpdate.from_reader [8, 0, 255, 127, 255, 127]
        = .ok ({ color_xy := some ⟨32767 / 65535, 32767 / 65535⟩ }, []) := by
  have h := from_reader_serializedBytes _ decoded_half_wf []
  rwa [List.append_nil, serializedBytes_decoded_half] at h

/-- Counterexample for C1 as literally stated: the spec's own example
value `color_xy = (0.5, 0.5)` (§8, scenario 2) does not round-trip — the
encoder truncates `0.5 * 0xFFFF = 32767.5` to `0x7FFF`, and the decoder
returns `32767 / 65535 ≠ 1 / 2`. -/
theorem C1_counterexample :
    HueZigbeeUpdate.serialize { color_xy := some ⟨1 / 2, 1 / 2⟩ }
        = .ok [8, 0, 255, 127, 255, 127] ∧
    HueZigbeeUpdate.from_reader [8, 0, 255, 127, 255, 127]
        = .ok ({ color_xy := some ⟨32767 / 65535, 32767 / 65535⟩ }, []) ∧
    ({ color_xy := some ⟨32767 / 65535, 32767 / 65535⟩ } : HueZigbeeUpdate)
        ≠ { color_xy := some ⟨1 / 2, 1 / 2⟩ } := by
  refine ⟨serialize_half_xy, from_reader_half_bytes, fun h => ?_⟩
  have hx := congrArg (fun z => z.color_xy) h
  simp only [Option.some_inj, XY.mk.injEq] at hx
  exact absurd hx.1 (by norm_num)

/-- C2 (corrected): the write path of `HueZigbeeUpdate::serialize` emits
the GRADIENT_COLORS block strictly *before* the EFFECT_SPEED byte — the
same order in which `from_reader` consumes them (witnessed by the round
trip over exactly this layout).  The claim's asserted write order
(EFFECT_SPEED before GRADIENT_COLORS) is refuted by the counterexample. -/
theorem C2_write_and_read_order (hz : HueZigbeeUpdate) (hwf : hz.Wf)
    (gc : GradientColors) (hgc : hz.gradient_colors = some gc)
    (es : Nat) (hes : hz.effect_speed = some es) :
    ∃ pre post, hz.serialize = .ok (pre ++ (bytesOfGC gc ++ (writeU8 es ++ post))) ∧
      HueZigbeeUpdate.from_reader (pre ++ (bytesOfGC gc ++ (writeU8 es ++ post)))
        = .ok (hz, []) := by
  have e : serializedBytes hz
      = (writeU16LE (flagsWord hz) ++ segOnOff hz ++ segBrightness hz ++ segColorMirek hz
          ++ segColorXY hz ++ segUnk0 hz ++ segEffectType hz)
        ++ (bytesOfGC gc ++ (writeU8 es ++ segGradientParams hz)) := by
    simp [serializedBytes, segGradientColors, hgc, segEffectSpeed, hes, List.append_assoc]
  refine ⟨writeU16LE (flagsWord hz) ++ segOnOff hz ++ segBrightness hz ++ segColorMirek hz
      ++ segColorXY hz ++ segUnk0 hz ++ segEffectType hz, segGradientParams hz, ?_, ?_⟩
  · rw [serialize_wf_eq hz hwf, e]
  · have h := from_reader_serializedBytes hz hwf []
    rw [List.append_nil, e] at h
    exact h

/-- Witness for C2 (corrected): the fully-populated witness update has
both GRADIENT_COLORS and EFFECT_SPEED present and serializes with the
gradient block before the speed byte, round-tripping back. -/
theorem C2_write_and_read_order_witness :
    ∃ pre post,
      hzWitness.serialize
        = .ok (pre ++ (bytesOfGC ⟨⟨1, 0, 0, 0⟩, [⟨1 / 4095, 0⟩]⟩ ++ (writeU8 7 ++ post))) ∧
      HueZigbeeUpdate.from_reader
          (pre ++ (bytesOfGC ⟨⟨1, 0, 0, 0⟩, [⟨1 / 4095, 0⟩]⟩ ++ (writeU8 7 ++ post)))
        = .ok (hzWitness, []) :=
  C2_write_and_read_order hzWitness hzWitness_wf ⟨⟨1, 0, 0, 0⟩, [⟨1 / 4095, 0⟩]⟩ rfl 7 rfl

/-- Counterexample for C2 as stated: for an update carrying both fields,
the EFFECT_SPEED byte `0xAA = 170` is the *last* byte of the actual
output, after the 5-byte GRADIENT_COLORS block — not before it as the
claim's write order (embodied by `serializedBytesSpecOrder`) predicts. -/
theorem C2_counterexample :
    HueZigbeeUpdate.serialize
        { gradient_colors := some ⟨⟨0, 0, 0, 0⟩, []⟩, effect_speed := some 170 }
      = .ok [128, 1, 4, 0, 0, 0, 0, 170] ∧
    serializedBytesSpecOrder
        { gradient_colors := some ⟨⟨0, 0, 0, 0⟩, []⟩, effect_speed := some 170 }
      = [128, 1, 170, 4, 0, 0, 0, 0] ∧
    ([128, 1, 4, 0, 0, 0, 0, 170] : List Nat) ≠ [128, 1, 170, 4, 0, 0, 0, 0] := by
  refine ⟨rfl, rfl, by decide⟩

lemma runStreamOps_counter (ops : List StreamOp) (s : EntertainmentZigbeeStream)
    (h : s.counter + frameCount ops < 4294967296) :
    (runStreamOps s ops).counter = s.counter + frameCount ops := by
  induction ops generalizing s with
  | nil => simp [runStreamOps, frameCount]
  | cons op rest ih =>
    cases op with
    | frame blks =>
      have hc : ((s.frame blks).2).counter = s.counter + 1 := by
        simp only [EntertainmentZigbeeStream.frame]
        have : s.counter + 1 < 4294967296 := by
          have := h
          simp only [frameCount] at this
          omega
        exact Nat.mod_eq_of_lt this
      rw [runStreamOps, ih]
      · rw [hc]
        simp only [frameCount] at *
        omega
      · rw [hc]
        simp only [frameCount] at h
        omega
    | reset =>
      rw [runStreamOps]
      simp only [EntertainmentZigbeeStream.reset]
      rw [ih]
      · simp [frameCount]
      · simp only [frameCount] at h
        exact h
    | segmentMapping map =>
      rw [runStreamOps]
      simp only [EntertainmentZigbeeStream.segment_mapping]
      rw [ih]
      · simp [frameCount]
      · simp only [frameCount] at h
        exact h

/-- C3: a stream started at counter `N`, after any interleaving of calls
containing exactly `K` `frame` calls (with `reset` and `segment_mapping`
calls in between), has counter `N + K` (no `u32` wrap-around occurring);
each `frame` call increments the counter by exactly one after encoding
the pre-increment counter, and `reset` encodes the current counter into
its payload without changing the state. -/
theorem C3_stream_counter (N K : Nat) (ops : List StreamOp)
    (hK : frameCount ops = K) (hlt : N + K < 4294967296) :
    (runStreamOps (EntertainmentZigbeeStream.new N) ops).counter = N + K ∧
    (∀ (s : EntertainmentZigbeeStream) (blks : List HueEntFrameLightRecord),
      (s.frame blks).2.counter = (s.counter + 1) % 4294967296 ∧
      (s.frame blks).2.smoothing = s.smoothing ∧
      (s.frame blks).1.data
        = writeU32LE s.counter ++ writeU16LE s.smoothing ++ entRecordsBytes blks) ∧
    (∀ s : EntertainmentZigbeeStream,
      s.reset.2 = s ∧ s.reset.1.data = writeU8 0 ++ writeU8 1 ++ writeU32LE s.counter) ∧
    (∀ (s : EntertainmentZigbeeStream) (map : List Nat), (s.segment_mapping map).2 = s) := by
  refine ⟨?_, ?_, ?_, ?_⟩
  · subst hK
    exact runStreamOps_counter ops _ hlt
  · intro s blks
    exact ⟨rfl, rfl, rfl⟩
  · intro s
    exact ⟨rfl, rfl⟩
  · intro s map
    exact rfl

/-- Witness for C3: starting from counter 0, three `frame` calls
interleaved with a `reset` and a `segment_mapping` leave the counter at
3. -/
theorem C3_stream_counter_witness :
    frameCount [StreamOp.frame [], StreamOp.reset, StreamOp.frame [],
      StreamOp.segmentMapping [], StreamOp.frame []] = 3 ∧
    (0 : Nat) + 3 < 4294967296 ∧
    (runStreamOps (EntertainmentZigbeeStream.new 0)
      [StreamOp.frame [], StreamOp.reset, StreamOp.frame [],
        StreamOp.segmentMapping [], StreamOp.frame []]).counter = 0 + 3 :=
  ⟨rfl, by norm_num,
    (C3_stream_counter 0 3
      [StreamOp.frame [], StreamOp.reset, StreamOp.frame [],
        StreamOp.segmentMapping [], StreamOp.frame []] rfl (by norm_num)).1⟩

/-- C9: the claim says `HueEntFrame::parse` returns a value or an error
without panicking for every input.  The code panics (out-of-bounds slice
`&data[..7]`) whenever the length past the 6-byte header is not a
multiple of 7: a 14-byte input passes the minimum-length check, consumes
one 7-byte record from the remaining 8 bytes, and then slices 7 bytes
out of the single remaining byte.  Short inputs do fail with
`InvalidValue` and records are consumed to end of input as claimed
(13-byte input shown). -/
theorem C9_parse_panics :
    HueEntFrame.parse (List.replicate 14 0) = .panic ∧
    HueEntFrame.parse (List.replicate 12 0) = .invalidValue ∧
    HueEntFrame.parse (List.replicate 13 0) = .ok ⟨0, 0, [⟨0, 0, [0, 0, 0]⟩]⟩ ∧
    HueEntFrame.parse (List.replicate 20 0)
      = .ok ⟨0, 0, [⟨0, 0, [0, 0, 0]⟩, ⟨0, 0, [0, 0, 0]⟩]⟩ := by
  refine ⟨?_, ?_, ?_, ?_⟩ <;> rfl

/-- C7 (corrected): `a − b` contains exactly the fields of `b` that
differ from `a` (a field is present in the update iff it differs and is
present in `b`; the mandatory name is present iff it differs), and the
subtract/add-assign round trip `a += (a − b) = b` holds *provided* each
differing `Option` field of `b` is actually present — add-assign cannot
clear a field, so the round trip fails when `b` drops a field `a` has
(see the counterexample). -/
theorem C7_sub_addAssign_roundtrip (a b : SceneMetadata)
    (happ : a.appdata ≠ b.appdata → b.appdata.isSome)
    (himg : a.image ≠ b.image → b.image.isSome) :
    SceneMetadata.addAssign a (SceneMetadata.sub a b) = b ∧
    ((SceneMetadata.sub a b).appdata.isSome ↔ a.appdata ≠ b.appdata ∧ b.appdata.isSome) ∧
    ((SceneMetadata.sub a b).image.isSome ↔ a.image ≠ b.image ∧ b.image.isSome) ∧
    ((SceneMetadata.sub a b).name.isSome ↔ a.name ≠ b.name) := by
  by_cases heq : a = b
  · subst heq
    simp [SceneMetadata.sub, SceneMetadata.addAssign]
  · obtain ⟨aa, ai, an⟩ := a
    obtain ⟨ba, bi, bn⟩ := b
    by_cases h1 : aa = ba <;> by_cases h2 : ai = bi <;> by_cases h3 : an = bn <;>
      cases ba <;> cases bi <;>
      simp_all [SceneMetadata.sub, SceneMetadata.addAssign]

/-- Witness for C7 (corrected): two concrete metadata values differing in
every field, with the differing option fields present in `b`. -/
theorem C7_sub_addAssign_roundtrip_witness :
    ((⟨some "old", none, "a"⟩ : SceneMetadata).appdata ≠ (⟨some "new", some ⟨7, RType.publicImage⟩, "b"⟩ : SceneMetadata).appdata → (some "new" : Option String).isSome) ∧
    SceneMetadata.addAssign ⟨some "old", none, "a"⟩
        (SceneMetadata.sub ⟨some "old", none, "a"⟩ ⟨some "new", some ⟨7, RType.publicImage⟩, "b"⟩)
      = ⟨some "new", some ⟨7, RType.publicImage⟩, "b"⟩ :=
  ⟨fun _ => rfl,
    (C7_sub_addAssign_roundtrip ⟨some "old", none, "a"⟩
      ⟨some "new", some ⟨7, RType.publicImage⟩, "b"⟩ (fun _ => rfl) (fun _ => rfl)).1⟩

/-- Counterexample for C7 as stated: when `b` clears a field that `a`
has (`a.appdata = some "x"`, `b.appdata = none`), the subtraction copies
`b`'s `None` — indistinguishable from "field absent" — and add-assign
therefore leaves `a.appdata` untouched: the round trip does not return
`b`. -/
theorem C7_counterexample :
    SceneMetadata.sub ⟨some "x", none, "n"⟩ ⟨none, none, "n"⟩ = {} ∧
    SceneMetadata.addAssign ⟨some "x", none, "n"⟩
        (SceneMetadata.sub ⟨some "x", none, "n"⟩ ⟨none, none, "n"⟩)
      = ⟨some "x", none, "n"⟩ ∧
    (⟨some "x", none, "n"⟩ : SceneMetadata) ≠ ⟨none, none, "n"⟩ := by
  refine ⟨?_, ?_, ?_⟩ <;> decide

/-- C4: for a Light stored under `id`, a successful typed update
broadcasts exactly one `Update` event whose on and brightness equal the
light's post-mutation `on.on` and `dimming.brightness`, carrying the
mirek when `color_mode = ColorTemp`, the xy color when
`color_mode = Xy`, and no color field otherwise; the store holds the
mutated light. -/
theorem C4_light_update_event (st : Resources) (id : Nat) (l : Light) (f : Light → Light)
    (hl : alistGet st.res id = some (.light l)) :
    st.try_update_light id (fun x => (f x, .ok ())) =
      (.ok (), { st with res := alistSet st.res id (.light (f l)) },
        [EventBlock.update id (.light
          { on_ := some ⟨(f l).on_.on_⟩,
            dimming := some ⟨(f l).dimming.brightness⟩,
            color_temperature :=
              match (f l).color_mode with
              | some .colorTemp => some ⟨(f l).color_temperature.mirek⟩
              | _ => none,
            color :=
              match (f l).color_mode with
              | some .xy => some ⟨(f l).color.xy⟩
              | _ => none })]) := by
  rw [Resources.try_update_light, hl]
  cases hcm : (f l).color_mode with
  | none =>
    simp [tryIntoLight, Resources.generate_update, hcm, LightUpdate.new,
      LightUpdate.with_brightness, LightUpdate.with_on]
  | some cm =>
    cases cm <;>
      simp [tryIntoLight, Resources.generate_update, hcm, LightUpdate.new,
        LightUpdate.with_brightness, LightUpdate.with_on,
        LightUpdate.with_color_temperature, LightUpdate.with_color_xy]

/-- Witness for C4: updating a one-light store (turning the light on at
brightness 50) fires exactly the expected event. -/
theorem C4_light_update_event_witness :
    (Resources.try_update_light { aux := [], res := [(1, .light lightW)] } 1
        (fun x => (({ x with on_ := ⟨true⟩, dimming := ⟨50⟩ } : Light), .ok ()))) =
      (.ok (), { aux := [], res := [(1, .light { lightW with on_ := ⟨true⟩, dimming := ⟨50⟩ })] },
        [EventBlock.update 1 (.light
          { on_ := some ⟨true⟩, dimming := some ⟨50⟩,
            color_temperature := none, color := none })]) := by
  have h := C4_light_update_event { aux := [], res := [(1, .light lightW)] } 1 lightW
    (fun x => { x with on_ := ⟨true⟩, dimming := ⟨50⟩ }) rfl
  simpa [alistSet, lightW] using h

/-- C10: when the stored resource's kind does not support update
synthesis (here a `Device`), `try_update` returns `UpdateUnsupported`
*after* the mutation closure has already modified the stored resource:
the store is changed despite the error, and no event is broadcast. -/
theorem C10_try_update_not_atomic (st : Resources) (id : Nat) (d : Device)
    (f : Device → Device) (hd : alistGet st.res id = some (.device d)) :
    st.try_update_device id (fun x => (f x, .ok ())) =
      (.error (.updateUnsupported RType.device),
        { st with res := alistSet st.res id (.device (f d)) }, []) := by
  rw [Resources.try_update_device, hd]
  simp [tryIntoDevice, Resources.generate_update, Resource.rtype]

/-- Witness for C10: mutating a stored device's service list yields the
`UpdateUnsupported` error while the store retains the mutation. -/
theorem C10_try_update_not_atomic_witness :
    (Resources.try_update_device { aux := [], res := [(1, .device ⟨[]⟩)] } 1
        (fun x => (({ x with services := [⟨5, RType.light⟩] } : Device), .ok ()))) =
      (.error (.updateUnsupported RType.device),
        { aux := [], res := [(1, .device ⟨[⟨5, RType.light⟩]⟩)] }, []) := by
  have h := C10_try_update_not_atomic { aux := [], res := [(1, .device ⟨[]⟩)] } 1 ⟨[]⟩
    (fun x => { x with services := [⟨5, RType.light⟩] }) rfl
  simpa [alistSet] using h

/-- C5 (corrected): `get::<Light>` fails with `NotFound` both when
nothing is stored under `link.rid` *and* when the stored resource's type
tag differs from `link.rtype` (the `filter` feeds `ok_or(NotFound)`);
`WrongType` is returned exactly when the tag matches the link but the
variant is not a `Light`; a stored `Light` under a matching link is
returned. -/
theorem C5_get_light_errors (st : Resources) (link : ResourceLink) :
    (alistGet st.res link.rid = none →
      st.get_light link = .error (.notFound link.rid)) ∧
    (∀ obj, alistGet st.res link.rid = some obj → obj.rtype ≠ link.rtype →
      st.get_light link = .error (.notFound link.rid)) ∧
    (∀ obj, alistGet st.res link.rid = some obj → obj.rtype = link.rtype →
      (∀ l, obj ≠ .light l) → isWrongTypeErr (st.get_light link) = true) ∧
    (∀ l, alistGet st.res link.rid = some (.light l) → link.rtype = RType.light →
      st.get_light link = .ok l) := by
  refine ⟨?_, ?_, ?_, ?_⟩
  · intro h
    rw [Resources.get_light, h]
  · intro obj h hne
    rw [Resources.get_light, h]
    simp [hne]
  · intro obj h heq hnl
    rw [Resources.get_light, h]
    simp only [heq, if_true, eq_self_iff_true]
    cases obj <;> simp [tryIntoLight, isWrongTypeErr]
    exact absurd rfl (hnl _)
  · intro l h heq
    rw [Resources.get_light, h]
    simp [Resource.rtype, heq, tryIntoLight]

/-- Witness for C5 (corrected): in a one-light store, a matching link
returns the light; a link with a `Scene` tag pointing at the same id
yields `NotFound`. -/
theorem C5_get_light_errors_witness :
    Resources.get_light { aux := [], res := [(1, .light lightW)] } ⟨1, RType.light⟩
      = .ok lightW ∧
    Resources.get_light { aux := [], res := [(1, .light lightW)] } ⟨1, RType.scene⟩
      = .error (.notFound 1) :=
  ⟨(C5_get_light_errors { aux := [], res := [(1, .light lightW)] } ⟨1, RType.light⟩).2.2.2
      lightW rfl rfl,
   (C5_get_light_errors { aux := [], res := [(1, .light lightW)] } ⟨1, RType.scene⟩).2.1
      (.light lightW) rfl (by decide)⟩

/-- Counterexample for C5 as stated: the claim demands `WrongType`
whenever the stored variant's tag differs from `link.rtype`; with a
`Light` stored under id 1 and a link carrying the `Scene` tag, `get`
returns `NotFound 1` and not a `WrongType` error. -/
theorem C5_counterexample :
    Resources.get_light { aux := [], res := [(1, .light lightW)] } ⟨1, RType.scene⟩
      = .error (.notFound 1) ∧
    isWrongTypeErr
      (Resources.get_light { aux := [], res := [(1, .light lightW)] } ⟨1, RType.scene⟩)
      = false := ⟨rfl, rfl⟩

lemma find?_range_eq_some (P : Nat → Bool) (k n : Nat) :
    (List.range k).find? P = some n ↔ n < k ∧ P n = true ∧ ∀ m < n, P m = false := by
  induction k generalizing n with
  | zero => simp
  | succ k ih =>
    rw [List.range_succ, List.find?_append]
    cases hf : (List.range k).find? P with
    | some m =>
      obtain ⟨hm, hPm, hmin⟩ := (ih m).mp hf
      have hor : (some m).or ((List.find? P [k])) = some m := rfl
      rw [hor]
      constructor
      · intro h
        obtain rfl : m = n := Option.some_inj.mp h
        exact ⟨by omega, hPm, hmin⟩
      · rintro ⟨hn, hPn, hmin2⟩
        have hmn : m = n := by
          rcases Nat.lt_trichotomy m n with h1 | h1 | h1
          · rw [hmin2 m h1] at hPm
            exact absurd hPm (by simp)
          · exact h1
          · rw [hmin n h1] at hPn
            exact absurd hPn (by simp)
        rw [hmn]
    | none =>
      have hall : ∀ x < k, P x = false := by
        intro x hx
        have h2 := List.find?_eq_none.mp hf x (List.mem_range.mpr hx)
        simpa using h2
      have hor : ∀ x : Option Nat, (Option.none).or x = x := fun x => rfl
      rw [hor]
      cases hPk : P k with
      | true =>
        simp only [List.find?_cons, hPk]
        constructor
        · intro h
          obtain rfl : k = n := Option.some_inj.mp h
          exact ⟨by omega, hPk, fun m hm => hall m hm⟩
        · rintro ⟨hn, hPn, hmin2⟩
          rcases Nat.lt_or_ge n k with h1 | h1
          · rw [hall n h1] at hPn
            exact absurd hPn (by simp)
          · have h2 : n = k := by omega
            rw [h2]
      | false =>
        simp only [List.find?_cons, hPk, List.find?_nil]
        constructor
        · intro h
          exact absurd h (by simp)
        · rintro ⟨hn, hPn, hmin2⟩
          rcases Nat.lt_or_ge n k with h1 | h1
          · rw [hall n h1] at hPn
            exact absurd hPn (by simp)
          · have h2 : n = k := by omega
            rw [h2, hPk] at hPn
            exact absurd hPn (by simp)

lemma sceneIndexSet_mem (st : Resources) (room : ResourceLink) (i : Nat) :
    i ∈ sceneIndexSet st room ↔ isSceneIndex st room i := by
  unfold sceneIndexSet isSceneIndex Resources.get_resources_by_type
  rw [List.mem_filterMap]
  constructor
  · rintro ⟨⟨id, robj⟩, hp, hf⟩
    rw [List.mem_filter] at hp
    obtain ⟨hmem, -⟩ := hp
    cases robj
    case scene scn =>
      dsimp only at hf
      by_cases hg : scn.group = room
      · rw [if_pos hg] at hf
        cases haux : alistGet st.aux id with
        | none =>
          rw [haux] at hf
          exact absurd hf (by simp)
        | some aux =>
          obtain ⟨t, idx⟩ := aux
          rw [haux] at hf
          cases idx with
          | none => exact absurd hf (by simp)
          | some v =>
            simp only [Option.some_inj] at hf
            exact ⟨id, scn, hmem, hg, ⟨t, some v⟩, haux, by rw [hf]⟩
      · rw [if_neg hg] at hf
        exact absurd hf (by simp)
    all_goals exact absurd hf (by simp)
  · rintro ⟨id, scn, hmem, hg, aux, haux, hidx⟩
    refine ⟨(id, .scene scn), ?_, ?_⟩
    · rw [List.mem_filter]
      exact ⟨hmem, by simp [Resource.rtype]⟩
    · obtain ⟨t, idx⟩ := aux
      simp only [] at hidx
      subst hidx
      simp [hg, haux]

/-- C6: `get_next_scene_id(room)` returns `n` exactly when `n` is the
smallest value in `[0, 100)` that is not the auxiliary index of any
stored scene of the room, and fails with `Full(Scene)` exactly when
every index in `[0, 100)` is taken by such a scene. -/
theorem C6_next_scene_id (st : Resources) (room : ResourceLink) :
    (∀ n, st.get_next_scene_id room = .ok n ↔
      (n < 100 ∧ ¬ isSceneIndex st room n ∧ ∀ m < n, isSceneIndex st room m)) ∧
    (st.get_next_scene_id room = .error (.full RType.scene) ↔
      ∀ m < 100, isSceneIndex st room m) := by
  have hPt : ∀ x, ((! (sceneIndexSet st room).contains x) = true ↔ ¬ isSceneIndex st room x) := by
    intro x
    simp [List.elem_iff, sceneIndexSet_mem st room x]
  have hPf : ∀ x, ((! (sceneIndexSet st room).contains x) = false ↔ isSceneIndex st room x) := by
    intro x
    simp [List.elem_iff, sceneIndexSet_mem st room x]
  constructor
  · intro n
    cases hfind : (List.range Resources.MAX_SCENE_ID).find?
        (fun x => ! (sceneIndexSet st room).contains x) with
    | some x =>
      obtain ⟨hx, hPx, hmin⟩ := (find?_range_eq_some _ Resources.MAX_SCENE_ID x).mp hfind
      simp only [Resources.get_next_scene_id, hfind, Resources.MAX_SCENE_ID] at *
      constructor
      · intro h
        obtain rfl : x = n := by simpa using h
        exact ⟨hx, (hPt x).mp hPx, fun m hm => (hPf m).mp (hmin m hm)⟩
      · rintro ⟨hn, hidx, hbelow⟩
        have hxn : x = n := by
          rcases Nat.lt_trichotomy x n with h1 | h1 | h1
          · exact absurd (hbelow x h1) ((hPt x).mp hPx)
          · exact h1
          · exact absurd ((hPf n).mp (hmin n h1)) hidx
        rw [hxn]
    | none =>
      have hall := List.find?_eq_none.mp hfind
      simp only [Resources.get_next_scene_id, hfind, Resources.MAX_SCENE_ID] at *
      constructor
      · intro h
        exact absurd h (by simp)
      · rintro ⟨hn, hidx, hbelow⟩
        have h2 := hall n (List.mem_range.mpr hn)
        rw [hPt n] at h2
        exact absurd hidx (by simpa using h2)
  · cases hfind : (List.range Resources.MAX_SCENE_ID).find?
        (fun x => ! (sceneIndexSet st room).contains x) with
    | some x =>
      obtain ⟨hx, hPx, hmin⟩ := (find?_range_eq_some _ Resources.MAX_SCENE_ID x).mp hfind
      simp only [Resources.get_next_scene_id, hfind, Resources.MAX_SCENE_ID] at *
      constructor
      · intro h
        exact absurd h (by simp)
      · intro hfull
        exact absurd (hfull x hx) ((hPt x).mp hPx)
    | none =>
      have hall := List.find?_eq_none.mp hfind
      simp only [Resources.get_next_scene_id, hfind, Resources.MAX_SCENE_ID] at *
      constructor
      · intro _ m hm
        have h2 := hall m (List.mem_range.mpr hm)
        rw [hPt m] at h2
        simpa using h2
      · intro _
        trivial

/-- Witness for C6 (the spec's §8 scenario 4): with room scenes at
indices `{0, 1, 3}`, the next scene id is 2 — below 100, not a used
index, with every smaller value used. -/
theorem C6_next_scene_id_witness :
    Resources.get_next_scene_id sceneStoreW roomW = .ok 2 ∧
    (2 < 100 ∧ ¬ isSceneIndex sceneStoreW roomW 2 ∧
      ∀ m < 2, isSceneIndex sceneStoreW roomW m) :=
  ⟨rfl, ((C6_next_scene_id sceneStoreW roomW).1 2).mp rfl⟩

lemma shutdownAbortAll_spec (ids : List Nat) (m : ServiceManager)
    (hnodup : ids.Nodup)
    (hsub : ∀ id ∈ ids, ∃ p ∈ m.svcs, p.1 = id) :
    ∃ m2, shutdownAbortAll m ids = .ok m2 ∧
      m2.svcs = m.svcs.filter (fun p => ! ids.contains p.1) ∧
      m2.names = m.names.filter (fun p => ! ids.contains p.2) := by
  induction ids generalizing m with
  | nil =>
    refine ⟨m, rfl, ?_, ?_⟩ <;> simp
  | cons id rest ih =>
    have hres : (m.svcs.find? (fun p => p.1 == id)).isSome = true := by
      rw [List.find?_isSome]
      obtain ⟨p, hp, hp1⟩ := hsub id (List.mem_cons_self id rest)
      exact ⟨p, hp, by simp [hp1]⟩
    have habort : m.abort id = .ok
        { svcs := m.svcs.filter (fun p => ! (p.1 == id)),
          names := m.names.filter (fun p => ! (p.2 == id)) } := by
      simp only [ServiceManager.abort, ServiceManager.remove,
        ServiceManager.resolveId, hres, if_true]
    obtain ⟨hid, hrestnd⟩ := List.nodup_cons.mp hnodup
    have hsub2 : ∀ i ∈ rest, ∃ p ∈
        (m.svcs.filter (fun p => ! (p.1 == id))), p.1 = i := by
      intro i hi
      obtain ⟨p, hp, hp1⟩ := hsub i (List.mem_cons_of_mem _ hi)
      refine ⟨p, ?_, hp1⟩
      rw [List.mem_filter]
      refine ⟨hp, ?_⟩
      have : i ≠ id := fun h => hid (h ▸ hi)
      simp [hp1, this]
    obtain ⟨m2, h1, h2, h3⟩ :=
      ih { svcs := m.svcs.filter (fun p => ! (p.1 == id)),
           names := m.names.filter (fun p => ! (p.2 == id)) } hrestnd hsub2
    refine ⟨m2, ?_, ?_, ?_⟩
    · rw [shutdownAbortAll, habort]
      exact h1
    · rw [h2, List.filter_filter]
      apply List.filter_congr
      intro p hp
      rw [List.contains_cons]
      cases hpe : (p.1 == id) <;> cases hpc : rest.contains p.1 <;> simp [hpe, hpc]
    · rw [h3, List.filter_filter]
      apply List.filter_congr
      intro p hp
      rw [List.contains_cons]
      cases hpe : (p.2 == id) <;> cases hpc : rest.contains p.2 <;> simp [hpe, hpc]

/-- C8 (corrected): when the Shutdown handler hits the 3-second timeout,
it aborts and removes *every* service that was registered when the
shutdown started — including those that had already reported `Stopped`.
After the branch the service map is empty and only names not bound to
any captured id survive.  The claim's "already-Stopped services remain
registered" is refuted by the counterexample. -/
theorem C8_shutdown_timeout_removes_all (m : ServiceManager)
    (hnodup : m.list.Nodup) :
    ∃ m2, m.shutdownOnTimeout = .ok m2 ∧ m2.svcs = [] ∧
      m2.names = m.names.filter (fun p => ! m.list.contains p.2) := by
  have hsub : ∀ id ∈ m.list, ∃ p ∈ m.svcs, p.1 = id := by
    intro id hid
    rw [ServiceManager.list, List.mem_map] at hid
    obtain ⟨p, hp, hp1⟩ := hid
    exact ⟨p, hp, hp1⟩
  obtain ⟨m2, h1, h2, h3⟩ := shutdownAbortAll_spec m.list m hnodup hsub
  refine ⟨m2, h1, ?_, h3⟩
  rw [h2, List.filter_eq_nil_iff]
  intro p hp
  have : p.1 ∈ m.list := by
    rw [ServiceManager.list, List.mem_map]
    exact ⟨p, hp, rfl⟩
  simp [List.elem_iff, this]

/-- Witness for C8 (corrected): a registry holding an already-Stopped
service "a" and a Running service "b"; the timeout branch removes both
records. -/
theorem C8_shutdown_timeout_removes_all_witness :
    (ServiceManager.list ⟨[(1, ⟨"a", .stopped⟩), (2, ⟨"b", .running⟩)],
        [("a", 1), ("b", 2)]⟩).Nodup ∧
    ∃ m2, ServiceManager.shutdownOnTimeout
        ⟨[(1, ⟨"a", .stopped⟩), (2, ⟨"b", .running⟩)], [("a", 1), ("b", 2)]⟩ = .ok m2 ∧
      m2.svcs = [] ∧
      m2.names = (⟨[(1, ⟨"a", .stopped⟩), (2, ⟨"b", .running⟩)],
          [("a", 1), ("b", 2)]⟩ : ServiceManager).names.filter
        (fun p => ! (ServiceManager.list ⟨[(1, ⟨"a", .stopped⟩), (2, ⟨"b", .running⟩)],
          [("a", 1), ("b", 2)]⟩).contains p.2) :=
  ⟨by decide,
    C8_shutdown_timeout_removes_all
      ⟨[(1, ⟨"a", .stopped⟩), (2, ⟨"b", .running⟩)], [("a", 1), ("b", 2)]⟩ (by decide)⟩

/-- Counterexample for C8 as stated: service 1 has already reported
`Stopped` when the timeout fires, yet the branch removes its record too —
afterwards nothing remains registered, contradicting "every service that
already reported Stopped remains registered". -/
theorem C8_counterexample :
    ServiceManager.shutdownOnTimeout
        ⟨[(1, ⟨"a", .stopped⟩), (2, ⟨"b", .running⟩)], [("a", 1), ("b", 2)]⟩
      = .ok ⟨[], []⟩ ∧
    (List.find? (fun p => p.1 == 1)
        ([(1, (⟨"a", .stopped⟩ : ServiceInstance)), (2, ⟨"b", .running⟩)]))
      = some (1, ⟨"a", .stopped⟩) := by
  refine ⟨rfl, rfl⟩
